import Mathlib

/-!
Verification development for the EventsNow bot (Python sources under
`handlers/`, `services/`, `database/`).  The data model and the handler
logic relevant to the event-lifecycle, pricing and wizard-validation
properties are shallowly embedded as executable Lean definitions and the
stated properties are proved or refuted against them.

Modelling conventions:
* SQLAlchemy rows become Lean structures; nullable columns become `Option`.
* Dates are day numbers (`Int`), timestamps (`utcnow`) are an explicit
  `now : Int` argument, times of day are `Option Int`.
* Python `float` money amounts are modelled as `ℚ`; Python `round`
  (banker's rounding, half to even) is `pyRound`.
* Each aiogram/FastAPI handler becomes a pure function from a database
  state `DB` (events, payments, photos, and a fan-out invocation counter)
  and its inputs to the new state plus an outcome tag mirroring the
  handler's distinct user-visible replies/early returns.
* `scalar_one_or_none` on a unique column is first-match `List.find?`;
  in-place ORM mutation plus commit is `updateFirst` on that list.
-/

namespace EventsNow

/-! ### Enums (database/models.py) -/

inductive EventStatus
  | DRAFT
  | PENDING_MODERATION
  | APPROVED_WAITING_PAYMENT
  | ACTIVE
  | ARCHIVED
  | REJECTED
  deriving DecidableEq, Repr

inductive PaymentStatus
  | PENDING
  | COMPLETED
  | FAILED
  | CANCELLED
  deriving DecidableEq, Repr

inductive EventCategory
  | EXHIBITION
  | MASTERCLASS
  | CONCERT
  | PERFORMANCE
  | LECTURE
  | OTHER
  deriving DecidableEq, Repr

inductive PricingModel
  | DAILY
  | PERIOD
  deriving DecidableEq, Repr

/-- `EventCategory.value` of the Python `str`-enum. -/
def categoryCode : EventCategory → String
  | .EXHIBITION => "EXHIBITION"
  | .MASTERCLASS => "MASTERCLASS"
  | .CONCERT => "CONCERT"
  | .PERFORMANCE => "PERFORMANCE"
  | .LECTURE => "LECTURE"
  | .OTHER => "OTHER"

/-! ### Rows (database/models.py) -/

/-- `events` table.  `created_at`/`updated_at` (DB-managed timestamps) are
not modelled; they play no role in any handler's logic. -/
structure Event where
  id : Nat
  user_id : Int
  city_slug : String
  title : String
  category : EventCategory
  description : Option String := none
  contact_phone : Option String := none
  contact_email : Option String := none
  location : Option String := none
  price_admission : Option ℚ := none
  admission_price_json : Option String := none
  free_kids_upto_age : Option Nat := none
  reject_reason : Option String := none
  event_date : Option Int := none
  event_time_start : Option Int := none
  event_time_end : Option Int := none
  period_start : Option Int := none
  period_end : Option Int := none
  working_hours_start : Option Int := none
  working_hours_end : Option Int := none
  status : EventStatus := .DRAFT
  payment_status : PaymentStatus := .PENDING
  deriving DecidableEq, Repr

/-- `payments` table (`event_id` and `transaction_id` are unique columns). -/
structure Payment where
  user_id : Int
  event_id : Option Nat := none
  category : EventCategory
  pricing_model : PricingModel
  package_daily : Option String := none
  num_posts : Option Int := none
  package_period : Option String := none
  num_days : Option Int := none
  amount : ℚ
  status : PaymentStatus := .PENDING
  payment_system : Option String := none
  transaction_id : Option String := none
  completed_at : Option Int := none
  deriving DecidableEq, Repr

/-- `event_photos` rows used by the resubmission flow. -/
structure EventPhoto where
  event_id : Nat
  file_id : String
  position : Nat
  deriving DecidableEq, Repr

/-- The shared mutable store, plus a counter of
`notify_new_event_published` (publish fan-out) invocations. -/
structure DB where
  events : List Event
  payments : List Payment := []
  photos : List EventPhoto := []
  notifyCount : Nat := 0
  deriving DecidableEq, Repr

/-! ### Store helpers -/

/-- Apply `f` to the first element satisfying `p` (ORM: mutate the row
returned by `scalar_one_or_none` on a unique column, then commit). -/
def updateFirst {α : Type} (p : α → Bool) (f : α → α) : List α → List α
  | [] => []
  | x :: xs => if p x then f x :: xs else x :: updateFirst p f xs

/-- `select(Event).where(Event.id == event_id)` + `scalar_one_or_none`. -/
def findEvent (db : DB) (event_id : Nat) : Option Event :=
  db.events.find? (fun e => e.id == event_id)

/-- Commit of a mutation of the event row with the given id. -/
def updateEventById (event_id : Nat) (f : Event → Event) (evs : List Event) : List Event :=
  updateFirst (fun e => e.id == event_id) f evs

/-- `event.status = EventStatus.APPROVED_WAITING_PAYMENT` (the one write
of `admin_approve`). -/
def setApprovedWaitingPayment (e : Event) : Event :=
  { e with status := .APPROVED_WAITING_PAYMENT }

/-- `event.status = REJECTED; event.reject_reason = reason`. -/
def setRejected (reason : String) (e : Event) : Event :=
  { e with status := .REJECTED, reject_reason := some reason }

/-- `event.payment_status = COMPLETED; event.status = ACTIVE` (the write
shared by every payment-confirmation path). -/
def activateEvent (e : Event) : Event :=
  { e with payment_status := .COMPLETED, status := .ACTIVE }

/-- The payment mutation of the test-confirm path
(`p.status = COMPLETED; p.payment_system = "test"; p.completed_at = now`). -/
def completeTestPayment (now : Int) (p : Payment) : Payment :=
  { p with status := .COMPLETED, payment_system := some ("test"), completed_at := some now }

/-- The payment mutation of the webhook success path
(`payment.status = COMPLETED; payment.completed_at = now`). -/
def completePayment (now : Int) (p : Payment) : Payment :=
  { p with status := .COMPLETED, completed_at := some now }

/-! ### Pricing configuration (config.py) -/

/-- One category entry of `PRICING_CONFIG`.  `model` is the raw string tag
of the config dict; `packages` is the (insertion-ordered) package dict.
Config prices are numeric literals, embedded as `ℚ`. -/
structure CategoryPricing where
  name : String
  model : String
  base_price_per_day : Option ℚ := none
  base_price_per_item : Option ℚ := none
  packages : List (String × ℚ)
  deriving DecidableEq, Repr

/-- `PRICING_CONFIG` from config.py (commented-out package lines of the
source are absent from the dicts). -/
def PRICING_CONFIG : List (String × CategoryPricing) :=
  [ ("EXHIBITION",
      { name := "Выставка", model := "period",
        base_price_per_day := some 150, packages := [("1_day", 1799)] }),
    ("MASTERCLASS",
      { name := "Мастер-класс", model := "daily", packages := [("1_post", 699)] }),
    ("CONCERT",
      { name := "Концерт", model := "daily", packages := [("1_post", 1499)] }),
    ("PERFORMANCE",
      { name := "Выступление", model := "daily", packages := [("1_day", 499)] }),
    ("LECTURE",
      { name := "Лекция/Семинар", model := "daily", packages := [("1_post", 499)] }),
    ("OTHER",
      { name := "Другое", model := "daily", packages := [("1_day", 599)] }) ]

/-! ### Python string primitives

Lean's own `String` methods (`trim`, `splitOn`, ...) are implemented with
`Substring` loops that the kernel cannot evaluate, so the Python string
operations used by the embedded code are defined here by structural
recursion over `String.data`. -/

/-- The whitespace characters stripped by Python `str.strip()` (and
matched by the regex class `\s`). -/
def pyWs (c : Char) : Bool :=
  c == ' ' || c == '\t' || c == '\n' || c == '\r' || c == '\x0b' || c == '\x0c'

/-- Python `str.strip()`. -/
def pyStrip (s : String) : String :=
  ⟨((s.data.dropWhile pyWs).reverse.dropWhile pyWs).reverse⟩

/-- Python `str.replace(a, b)` for one-character `a`/`b` (the only form
the embedded code uses). -/
def pyReplaceChar (a b : Char) (s : String) : String :=
  ⟨s.data.map (fun c => if c == a then b else c)⟩

/-- Python `str.split(sep)` for a one-character separator. -/
def splitOnChar (sep : Char) : List Char → List (List Char)
  | [] => [[]]
  | c :: cs =>
    match splitOnChar sep cs with
    | [] => [[]]
    | h :: t => if c == sep then [] :: h :: t else (c :: h) :: t

def pySplit (sep : Char) (s : String) : List String :=
  (splitOnChar sep s.data).map List.asString

/-- `sep.join(...)` on character lists, used to rebuild the remainder of
a `split(sep, 1)`. -/
def joinWithChar (sep : Char) : List (List Char) → List Char
  | [] => []
  | [x] => x
  | x :: xs => x ++ sep :: joinWithChar sep xs

/-- Python `str.lower` on the alphabets appearing in the embedded
strings: ASCII `A`–`Z` and Cyrillic `А`–`Я` / `Ё`. -/
def pyLowerChar (c : Char) : Char :=
  if 65 ≤ c.toNat && c.toNat ≤ 90 then Char.ofNat (c.toNat + 32)
  else if 0x410 ≤ c.toNat && c.toNat ≤ 0x42F then Char.ofNat (c.toNat + 32)
  else if c.toNat == 0x401 then Char.ofNat 0x451
  else c

def pyLower (s : String) : String :=
  ⟨s.data.map pyLowerChar⟩

/-- Value of a (known-valid) digit string. -/
def digitsToNat (ds : List Char) : Nat :=
  ds.foldl (fun a c => a * 10 + (c.toNat - 48)) 0

/-- Python `int(...)` on a candidate digit string: some digits, nothing
else.  (Surrounding whitespace / an optional sign, which Python `int`
would also accept, do not occur in the inputs modelled here.) -/
def parseNatDigits? (ds : List Char) : Option Nat :=
  if ds.isEmpty then none
  else if ds.all Char.isDigit then some (digitsToNat ds) else none

/-! ### Pricing engine (services/payment_service.py) -/

/-- Python `round`: round half to even (banker's rounding). -/
def pyRound (q : ℚ) : ℤ :=
  let f : ℤ := ⌊q⌋
  let r : ℚ := q - (f : ℚ)
  if r < 1/2 then f
  else if 1/2 < r then f + 1
  else if 2 ∣ f then f else f + 1

/-- `_extract_int_prefix`: the regex `^\s*(\d+)` applied to a package key;
`none` models the `ValueError` on a key with no leading integer. -/
def extractIntCapacity (key : String) : Option Nat :=
  let ds := (key.data.dropWhile pyWs).takeWhile Char.isDigit
  if ds.isEmpty then none else some (digitsToNat ds)

/-- Python `int(...)` on the text before the first underscore of a period
package key (`int(key.split("_")[0])`); `none` models the `ValueError`.
(Surrounding whitespace / an optional sign, which Python `int` would also
accept, do not occur in config keys and are not modelled.) -/
def periodKeyCapacity (key : String) : Option Nat :=
  parseNatDigits? ((splitOnChar ('_') key.data).headD [])

/-- Result dict of the pricing engine: `num_items` is set by the daily
branch, `num_days` by the period branch. -/
structure PriceResult where
  package_name : String
  price : ℚ
  num_items : Option Int := none
  num_days : Option Int := none
  model : String
  total_price : ℚ
  deriving DecidableEq, Repr

/-- The `limits` list of `_calculate_daily_price`: capacity of each
package key, keeping key and price; errors if any key is malformed. -/
def packageLimits (packages : List (String × ℚ)) :
    Except String (List (Nat × String × ℚ)) :=
  packages.mapM (fun kp =>
    match extractIntCapacity kp.1 with
    | some n => Except.ok (n, kp.1, kp.2)
    | none => Except.error ("Bad package key"))

/-- Ascending stable sort of the limits by capacity (`limits.sort(key=...)`). -/
def sortLimits (limits : List (Nat × String × ℚ)) : List (Nat × String × ℚ) :=
  limits.insertionSort (fun a b => a.1 ≤ b.1)

/-- `_calculate_daily_price`.  Tier selection: first package of the
ascending-sorted limits whose capacity is `≥ num_posts`; overflow falls
back to `base_price_per_item * n` or to a unit rate derived from the
largest package, in both cases through Python `round`. -/
def _calculate_daily_price (config : CategoryPricing) (num_posts : Int) :
    Except String PriceResult :=
  if num_posts ≤ 0 then Except.error ("num_posts must be > 0")
  else if config.packages.isEmpty then Except.error ("No daily packages configured")
  else
    match packageLimits config.packages with
    | Except.error e => Except.error e
    | Except.ok limits =>
      let sorted := sortLimits limits
      match sorted.find? (fun t => decide (num_posts ≤ (t.1 : Int))) with
      | some t =>
        Except.ok { package_name := t.2.1, price := t.2.2, num_items := some num_posts,
                    model := "daily", total_price := t.2.2 }
      | none =>
        match config.base_price_per_item with
        | some base_price =>
          let total : ℚ := (pyRound (base_price * (num_posts : ℚ)) : ℤ)
          Except.ok { package_name := "custom_" ++ toString num_posts ++ "_posts",
                      price := total, num_items := some num_posts,
                      model := "daily", total_price := total }
        | none =>
          match sorted.getLast? with
          | none => Except.error ("No daily packages configured")
          | some m =>
            if m.1 == 0 then Except.error ("division by zero")
            else
              let unit : ℚ := m.2.2 / (m.1 : ℚ)
              let total : ℚ := (pyRound (unit * (num_posts : ℚ)) : ℤ)
              Except.ok { package_name := "custom_" ++ toString num_posts ++ "_posts",
                          price := total, num_items := some num_posts,
                          model := "daily", total_price := total }

/-- The `limits` list of `_calculate_period_price`. -/
def periodLimits (packages : List (String × ℚ)) :
    Except String (List (Nat × String × ℚ)) :=
  packages.mapM (fun kp =>
    match periodKeyCapacity kp.1 with
    | some n => Except.ok (n, kp.1, kp.2)
    | none => Except.error ("Bad package key"))

/-- `_calculate_period_price`: inclusive day count, same tier selection,
overflow `base_price_per_day (default 150) * num_days * 0.85`. -/
def _calculate_period_price (config : CategoryPricing) (start_date end_date : Int) :
    Except String PriceResult :=
  let num_days : Int := end_date - start_date + 1
  match periodLimits config.packages with
  | Except.error e => Except.error e
  | Except.ok limits =>
    let sorted := sortLimits limits
    match sorted.find? (fun t => decide (num_days ≤ (t.1 : Int))) with
    | some t =>
      Except.ok { package_name := t.2.1, price := t.2.2, num_days := some num_days,
                  model := "period", total_price := t.2.2 }
    | none =>
      let base_price : ℚ := config.base_price_per_day.getD 150
      let total_price : ℚ := base_price * (num_days : ℚ) * (85 / 100)
      Except.ok { package_name := "custom_" ++ toString num_days ++ "d",
                  price := total_price, num_days := some num_days,
                  model := "period", total_price := total_price }

/-- `calculate_price(category, num_posts=None, start_date=None, end_date=None)`;
`Except.error` models a raised `PricingError`. -/
def calculate_price (category : String) (num_posts : Option Int := none)
    (start_date : Option Int := none) (end_date : Option Int := none) :
    Except String PriceResult :=
  match PRICING_CONFIG.lookup category with
  | none => Except.error ("category not in PRICING_CONFIG")
  | some config =>
    if config.model == "daily" then
      match num_posts with
      | none => Except.error ("num_posts >= 1 required")
      | some n =>
        if n < 1 then Except.error ("num_posts >= 1 required")
        else _calculate_daily_price config n
    else if config.model == "period" then
      match start_date, end_date with
      | some s, some e =>
        if s > e then Except.error ("start_date after end_date")
        else _calculate_period_price config s e
      | _, _ => Except.error ("start_date and end_date required")
    else Except.error ("unknown pricing model")

/-! ### Moderation and payment handlers (handlers/admin_handler.py) -/

/-- `is_admin`: membership in the configured `ADMIN_IDS` allowlist (here an
explicit argument, as the allowlist is environment configuration). -/
def is_admin (admins : List Int) (user_id : Int) : Bool :=
  admins.contains user_id

inductive ApproveOutcome
  | denied
  | notFound
  | approved
  deriving DecidableEq, Repr

/-- `admin_approve` (`adm_ok:` callback): admin check, load event, set
`status := APPROVED_WAITING_PAYMENT`, commit, then notify (no status
re-check and no other field is written). -/
def admin_approve (admins : List Int) (db : DB) (actor : Int) (event_id : Nat) :
    DB × ApproveOutcome :=
  if is_admin admins actor = false then (db, .denied)
  else
    match findEvent db event_id with
    | none => (db, .notFound)
    | some _ =>
      ({ db with events := updateEventById event_id setApprovedWaitingPayment db.events },
       .approved)

inductive RejectOutcome
  | denied
  | tooShort
  | notFound
  | rejected
  deriving DecidableEq, Repr

/-- `admin_reject_reason`: admin check, reason length check, load event,
set `status := REJECTED` and store the reason. -/
def admin_reject_reason (admins : List Int) (db : DB) (actor : Int)
    (message_text : Option String) (event_id : Nat) : DB × RejectOutcome :=
  if is_admin admins actor = false then (db, .denied)
  else
    let reason := pyStrip (message_text.getD (""))
    if reason.length < 3 then (db, .tooShort)
    else
      match findEvent db event_id with
      | none => (db, .notFound)
      | some _ =>
        ({ db with events := updateEventById event_id (setRejected reason) db.events },
         .rejected)

inductive PayTestOutcome
  | notFound
  | notOwner
  | alreadyActive
  | confirmed
  deriving DecidableEq, Repr

/-- `organizer_pay_test` (`pay_test:` callback).  Owner check; an ACTIVE
event short-circuits with no effect; otherwise the event's (unique)
payment row is completed — or created as a completed test payment — the
event is set ACTIVE/COMPLETED, and `notify_new_event_published` is
invoked once. -/
def organizer_pay_test (db : DB) (actor : Int) (event_id : Nat) (now : Int) :
    DB × PayTestOutcome :=
  match findEvent db event_id with
  | none => (db, .notFound)
  | some event =>
    if event.user_id != actor then (db, .notOwner)
    else if event.status == .ACTIVE then (db, .alreadyActive)
    else
      match db.payments.find? (fun p => p.event_id == some event.id) with
      | some existing_payment =>
        let events' := updateEventById event_id activateEvent db.events
        if existing_payment.status == .COMPLETED then
          ({ db with events := events', notifyCount := db.notifyCount + 1 }, .confirmed)
        else
          let payments' := updateFirst (fun p => p.event_id == some event.id)
            (completeTestPayment now) db.payments
          ({ db with events := events', payments := payments',
                     notifyCount := db.notifyCount + 1 },
           .confirmed)
      | none =>
        let events' := updateEventById event_id activateEvent db.events
        let p : Payment :=
          { user_id := event.user_id, event_id := some event.id,
            category := event.category, pricing_model := .DAILY,
            amount := 0, status := .COMPLETED,
            payment_system := some ("test"), completed_at := some now }
        ({ db with events := events', payments := db.payments ++ [p],
                   notifyCount := db.notifyCount + 1 },
         .confirmed)

inductive PayStartOutcome
  | notFound
  | notOwner
  | alreadyPublished
  | notApproved
  | alreadyPaid
  | noPricingConfig
  | noPackages
  | noBaseUrl
  | gatewayError
  | started
  deriving DecidableEq, Repr

/-- Tail of `organizer_pay_start` after the status checks: derive the
fixed amount from `PRICING_CONFIG`, call the gateway (its result — or the
raised exception — is the `gateway` argument), then create or overwrite
the event's single Payment row as PENDING.  `existing` is the event's
payment row found before. -/
def payStartCharge (db : DB) (event : Event) (existing : Option Payment)
    (yookassa_return_url public_base_url : String)
    (gateway : Option (String × String)) : DB × PayStartOutcome :=
  match (PRICING_CONFIG.lookup (categoryCode event.category)) with
  | none => (db, .noPricingConfig)
  | some cfg =>
    match cfg.packages with
    | [] => (db, .noPackages)
    | (package_key, package_price) :: _ =>
      let amount : ℚ := package_price
      let model := pyLower (pyStrip cfg.model)
      let pricing_model := if model == "period" then PricingModel.PERIOD else PricingModel.DAILY
      let package_daily := if model == "period" then none else some package_key
      let package_period := if model == "period" then some package_key else none
      if yookassa_return_url.trim == "" && public_base_url == "" then (db, .noBaseUrl)
      else
        match gateway with
        | none => (db, .gatewayError)
        | some (yk_payment_id, _confirmation_url) =>
          let fresh : Payment :=
            { user_id := event.user_id, event_id := some event.id,
              category := event.category, pricing_model := pricing_model,
              package_daily := package_daily, num_posts := none,
              package_period := package_period, num_days := none,
              amount := amount, status := .PENDING,
              payment_system := some ("yookassa"),
              transaction_id := some yk_payment_id }
          let overwrite := fun (p : Payment) =>
            { p with category := event.category, pricing_model := pricing_model,
                     package_daily := package_daily, num_posts := none,
                     package_period := package_period, num_days := none,
                     amount := amount, status := PaymentStatus.PENDING,
                     payment_system := some ("yookassa"),
                     transaction_id := some yk_payment_id }
          let payments' :=
            match existing with
            | none => db.payments ++ [fresh]
            | some _ => updateFirst (fun p => p.event_id == some event.id) overwrite db.payments
          ({ db with payments := payments' }, .started)

/-- `organizer_pay_start` (`pay_start:` callback): owner check, status
must be exactly APPROVED_WAITING_PAYMENT (an ACTIVE event reports
"already published"); an already COMPLETED payment row re-activates the
event; otherwise a real charge is attempted via `payStartCharge`. -/
def organizer_pay_start (db : DB) (actor : Int) (event_id : Nat)
    (yookassa_return_url public_base_url : String)
    (gateway : Option (String × String)) : DB × PayStartOutcome :=
  match findEvent db event_id with
  | none => (db, .notFound)
  | some event =>
    if event.user_id != actor then (db, .notOwner)
    else if event.status == .ACTIVE then (db, .alreadyPublished)
    else if event.status != .APPROVED_WAITING_PAYMENT then (db, .notApproved)
    else
      match db.payments.find? (fun p => p.event_id == some event.id) with
      | some existing_payment =>
        if existing_payment.status == .COMPLETED then
          ({ db with events := updateEventById event_id activateEvent db.events },
           .alreadyPaid)
        else
          payStartCharge db event (some existing_payment)
            yookassa_return_url public_base_url gateway
      | none =>
        payStartCharge db event none yookassa_return_url public_base_url gateway

/-! ### Gateway webhook (handlers/yookassa_webhook.py) -/

inductive WebhookResult
  | missingPaymentId
  | ignored
  | ok
  deriving DecidableEq, Repr

/-- Body of `yookassa_webhook` after a successful `parse_webhook`:
`event_type` and the payment object's `id`/`status`/`amount.value` fields
are the arguments; `hasBot` models `request.app.state.bot` being set.
Idempotency: a payment already COMPLETED is not re-completed, and an
event already ACTIVE is neither touched nor re-announced. -/
def yookassa_webhook (db : DB) (hasBot : Bool) (event_type : String)
    (payment_obj_id : String) (payment_obj_status : String)
    (amount : Option ℚ) (now : Int) : DB × WebhookResult :=
  let yk_payment_id := pyStrip payment_obj_id
  let yk_status := pyStrip payment_obj_status
  if yk_payment_id == "" then (db, .missingPaymentId)
  else
    match db.payments.find? (fun p => p.transaction_id == some yk_payment_id) with
    | none => (db, .ignored)
    | some payment =>
      let payment1 :=
        match amount with
        | some a => if payment.amount == 0 then { payment with amount := a } else payment
        | none => payment
      let writeBack := fun (q : Payment) =>
        updateFirst (fun p => p.transaction_id == some yk_payment_id) (fun _ => q) db.payments
      if event_type == "payment.succeeded" || yk_status == "succeeded" then
        let payment2 :=
          if payment1.status != .COMPLETED then completePayment now payment1
          else payment1
        match payment.event_id with
        | some eid =>
          match findEvent db eid with
          | some ev =>
            if ev.status != .ACTIVE then
              ({ db with payments := writeBack payment2,
                         events := updateEventById eid activateEvent db.events,
                         notifyCount := db.notifyCount + (if hasBot then 1 else 0) },
               .ok)
            else ({ db with payments := writeBack payment2 }, .ok)
          | none => ({ db with payments := writeBack payment2 }, .ok)
        | none => ({ db with payments := writeBack payment2 }, .ok)
      else if event_type == "payment.canceled" || yk_status == "canceled" then
        ({ db with payments := writeBack { payment1 with status := .CANCELLED } }, .ok)
      else
        ({ db with payments := writeBack payment1 }, .ok)

/-! ### Archival sweep (services/event_archive.py) -/

/-- The sweep's per-row effect: the `UPDATE ... WHERE` of
`archive_expired_events` applied to one event. -/
def archiveStep (today : Int) (e : Event) : Event :=
  if e.status == .ACTIVE
      && ((match e.event_date with
           | some d => decide (d < today)
           | none => false)
          || (match e.period_end with
              | some d => decide (d < today)
              | none => false)) then
    { e with status := .ARCHIVED }
  else e

/-- `archive_expired_events(today)`: flip matching ACTIVE events to
ARCHIVED; returns the affected-row count. -/
def archive_expired_events (today : Int) (db : DB) : DB × Nat :=
  ({ db with events := db.events.map (archiveStep today) },
   db.events.countP (fun e => decide (archiveStep today e ≠ e)))

/-! ### Wizard: admission-price step (handlers/organizer_handler.py) -/

/-- `PRICE_TIER_PRESETS`: the required tier keys of each price mode. -/
def PRICE_TIER_PRESETS : List (String × List String) :=
  [ ("one", ["все"]),
    ("child_adult", ["дети", "взрослые"]),
    ("full", ["дети", "студенты", "взрослые", "пенсионеры"]) ]

/-- Python `float(...)` restricted to plain decimal literals: an optional
sign, digits, an optional single `.` with further digits.  Exotic float
syntax (exponents, `inf`/`nan`, underscore separators) does not occur in
the flows modelled here and parses to `none`. -/
def parseUnsignedDecimal? (cs : List Char) : Option ℚ :=
  let intPart := cs.takeWhile Char.isDigit
  match cs.drop intPart.length with
  | [] => if intPart.isEmpty then none else some ((digitsToNat intPart : ℚ))
  | '.' :: rest =>
    let fracPart := rest.takeWhile Char.isDigit
    if (rest.drop fracPart.length).isEmpty = false then none
    else if intPart.isEmpty && fracPart.isEmpty then none
    else some ((digitsToNat intPart : ℚ) + (digitsToNat fracPart : ℚ) / ((10 : ℚ) ^ fracPart.length))
  | _ => none

def parseDecimal? (s : String) : Option ℚ :=
  match s.data with
  | '-' :: rest => (parseUnsignedDecimal? rest).map (fun q => -q)
  | '+' :: rest => parseUnsignedDecimal? rest
  | _ => parseUnsignedDecimal? s.data

/-- Python dict membership `k in out` for the insertion-ordered pair
list representing a dict. -/
def dictHas : List (String × ℚ) → String → Bool
  | [], _ => false
  | kv :: rest, k => if kv.1 == k then true else dictHas rest k

/-- Python dict assignment `out[k] = v`: overwrite in place, else append. -/
def dictInsert (out : List (String × ℚ)) (k : String) (v : ℚ) : List (String × ℚ) :=
  if dictHas out k then
    out.map (fun kv => if kv.1 == k then (k, v) else kv)
  else out ++ [(k, v)]

/-- The parts list of `_parse_tier_prices`: replace `;` by `,`, strip,
split on `,`, strip each piece, drop empties. -/
def tierParts (text : String) : List String :=
  ((pySplit (',') (pyStrip (pyReplaceChar (';') (',') text))).map pyStrip).filter
    (fun p => p != "")

/-- One `key=value` part: `p.split("=", 1)` (`none` when `p` has no
`=`), the key stripped and lowercased, the value stripped with `,`→`.`. -/
def partKV? (p : String) : Option (String × String) :=
  match pySplit ('=') p with
  | [] => none
  | [_] => none
  | k :: vparts =>
    some (pyLower (pyStrip k),
      pyReplaceChar (',') ('.') (pyStrip (joinWithChar ('=') (vparts.map String.data)).asString))

/-- The per-part loop of `_parse_tier_prices`: a part must split as
`key=value`, the key must be allowed and the value a non-negative
number; accepted pairs accumulate into the dict `out`. -/
def parseTierParts (allowed_keys : List String) :
    List String → List (String × ℚ) → Except String (List (String × ℚ))
  | [], out => Except.ok out
  | p :: rest, out =>
    match partKV? p with
    | none => Except.error ("no_eq")
    | some (key, v) =>
      if allowed_keys.contains key then
        match parseDecimal? v with
        | none => Except.error ("bad_number")
        | some price =>
          if price < 0 then Except.error ("neg")
          else parseTierParts allowed_keys rest (dictInsert out key price)
      else Except.error ("bad_key")

/-- `_parse_tier_prices(text, allowed_keys)`: `Except.error` models the
raised `ValueError` caught by the caller. -/
def _parse_tier_prices (text : String) (allowed_keys : List String) :
    Except String (List (String × ℚ)) :=
  let parts := tierParts text
  if parts.isEmpty then Except.error ("empty")
  else
    match parseTierParts allowed_keys parts [] with
    | Except.error e => Except.error e
    | Except.ok out =>
      if allowed_keys.all (fun k => dictHas out k) then Except.ok out
      else Except.error ("missing")

/-- The FSM session data the admission-price step reads. -/
structure WizardData where
  admission_price_mode : Option String := none
  category : Option String := none
  deriving DecidableEq, Repr

inductive AdmissionPriceValue
  | single (price : ℚ)
  | tiers (prices : List (String × ℚ))
  deriving DecidableEq, Repr

/-- Outcome of the admission-price step: `advanced` stores the admission
price and moves the FSM to the free-kids question; the reject outcomes
re-prompt and leave the FSM on the same step. -/
inductive AdmissionStepResult
  | rejected
  | rejectedConcertMin
  | advanced (price : AdmissionPriceValue)
  deriving DecidableEq, Repr

/-- Fallback branch of `organizer_admission_price` when no tier mode was
chosen: a single number with `,`→`.`, non-negative, and — kept from the
old concert rule — a CONCERT price must be 0 or at least 1000. -/
def admissionFallback (data : WizardData) (text : String) : AdmissionStepResult :=
  let t := pyReplaceChar (',') ('.') text
  match parseDecimal? t with
  | none => .rejected
  | some price =>
    if price < 0 then .rejected
    else if data.category == some ("CONCERT") && price != 0 && price < 1000 then
      .rejectedConcertMin
    else .advanced (.single price)

/-- `organizer_admission_price`: tier-mode input goes through
`_parse_tier_prices` with the mode's preset keys; otherwise the single
number fallback. -/
def organizer_admission_price (data : WizardData) (message_text : Option String) :
    AdmissionStepResult :=
  let text := pyStrip (message_text.getD (""))
  match data.admission_price_mode with
  | some mode =>
    match PRICE_TIER_PRESETS.lookup mode with
    | some keys =>
      match _parse_tier_prices text keys with
      | Except.ok tiers => .advanced (.tiers tiers)
      | Except.error _ => .rejected
    | none => admissionFallback data text
  | none => admissionFallback data text

/-- Spec-side acceptance condition for tiered admission-price input,
following the spec's words: the comma/semicolon-separated `key=value`
list is non-empty, every entry carries a required tier key with a
non-negative numeric value, and every required tier key of the selected
mode is covered — with no dependence on the order of the entries. -/
def specTierAccept (text : String) (keys : List String) : Prop :=
  tierParts text ≠ [] ∧
  (∀ p ∈ tierParts text, ∃ k v q, partKV? p = some (k, v) ∧ k ∈ keys ∧
    parseDecimal? v = some q ∧ 0 ≤ q) ∧
  (∀ k ∈ keys, ∃ p ∈ tierParts text, ∃ v, partKV? p = some (k, v))

/-! ### Resubmission flow (handlers/organizer_handler.py, `org_fix:`) -/

inductive ResubmitOutcome
  | notFound
  | notOwner
  | notRejected
  | resubmitted (new_id : Nat)
  deriving DecidableEq, Repr

/-- The clone row built by `organizer_fix_and_resubmit`: every content
field copied, a fresh id, PENDING_MODERATION / PENDING statuses and no
reject reason.  (The `hasattr`-based column-name probing of the handler
resolves to exactly these columns on the models of models.py.) -/
def cloneEvent (old_event : Event) (new_event_id : Nat) : Event :=
  { id := new_event_id,
    user_id := old_event.user_id,
    city_slug := old_event.city_slug,
    title := old_event.title,
    category := old_event.category,
    description := old_event.description,
    contact_phone := old_event.contact_phone,
    contact_email := old_event.contact_email,
    location := old_event.location,
    price_admission := old_event.price_admission,
    admission_price_json := old_event.admission_price_json,
    free_kids_upto_age := old_event.free_kids_upto_age,
    event_date := old_event.event_date,
    event_time_start := old_event.event_time_start,
    event_time_end := old_event.event_time_end,
    period_start := old_event.period_start,
    period_end := old_event.period_end,
    working_hours_start := old_event.working_hours_start,
    working_hours_end := old_event.working_hours_end,
    reject_reason := none,
    status := .PENDING_MODERATION,
    payment_status := .PENDING }

/-- Photos of an event ordered by position
(`select(EventPhoto).where(...).order_by(position.asc())`). -/
def photosOf (photos : List EventPhoto) (event_id : Nat) : List EventPhoto :=
  (photos.filter (fun p => p.event_id == event_id)).insertionSort
    (fun a b => a.position ≤ b.position)

/-- `for idx, p in enumerate(old_photos[:5], start=1)`: re-attach the
photos to `new_id` with dense positions counted from `pos`. -/
def renumberPhotos (new_id : Nat) (pos : Nat) : List EventPhoto → List EventPhoto
  | [] => []
  | p :: rest =>
    { event_id := new_id, file_id := p.file_id, position := pos }
      :: renumberPhotos new_id (pos + 1) rest

/-- `organizer_fix_and_resubmit` (`org_fix:` callback): owner and
REJECTED guards; clone the event under the fresh id `new_event_id`
(`db.flush()`-assigned in the source), delete any photos of the new id,
then copy the first 5 old photos re-numbered densely from 1. -/
def organizer_fix_and_resubmit (db : DB) (actor : Int) (old_event_id : Nat)
    (new_event_id : Nat) : DB × ResubmitOutcome :=
  match findEvent db old_event_id with
  | none => (db, .notFound)
  | some old_event =>
    if old_event.user_id != actor then (db, .notOwner)
    else if old_event.status != .REJECTED then (db, .notRejected)
    else
      let new_event := cloneEvent old_event new_event_id
      let old_photos := photosOf db.photos old_event_id
      let kept := db.photos.filter (fun p => p.event_id != new_event_id)
      let copied := renumberPhotos new_event_id 1 (old_photos.take 5)
      ({ db with events := db.events ++ [new_event], photos := kept ++ copied },
       .resubmitted new_event_id)

/-! ### Fixtures for concrete instantiations -/

/-- A minimal event row for concrete counterexamples and witnesses. -/
def mkEvent (id : Nat) (owner : Int) (st : EventStatus) : Event :=
  { id := id, user_id := owner, city_slug := "nojabrsk", title := "Event",
    category := .CONCERT, status := st }

/-- A pending gateway payment row for an event. -/
def mkPendingPayment (eid : Nat) (owner : Int) (tid : String) : Payment :=
  { user_id := owner, event_id := some eid, category := .CONCERT,
    pricing_model := .DAILY, amount := 1499, transaction_id := some tid }

/-- One ACTIVE event with its (still pending) gateway payment row. -/
def sampleActiveDB : DB :=
  { events := [mkEvent 1 10 .ACTIVE], payments := [mkPendingPayment 1 10 ("yk-1")] }

/-- One APPROVED_WAITING_PAYMENT event with its pending payment row. -/
def sampleApprovedDB : DB :=
  { events := [mkEvent 1 10 .APPROVED_WAITING_PAYMENT],
    payments := [mkPendingPayment 1 10 ("yk-1")] }

/-- A REJECTED event with a reason and two photos. -/
def sampleRejectedDB : DB :=
  { events := [{ mkEvent 1 10 .REJECTED with reject_reason := some ("bad") }],
    photos := [{ event_id := 1, file_id := "f1", position := 1 },
               { event_id := 1, file_id := "f2", position := 2 }] }

/-! ## Theorems

Shared helper lemmas first, then one theorem (plus witness or
counterexample where applicable) per claim. -/

theorem updateFirst_of_forall_neg {α : Type} (p : α → Bool) (f : α → α) (l : List α)
    (h : ∀ x ∈ l, p x = false) : updateFirst p f l = l := by
  induction l with
  | nil => rfl
  | cons x xs ih =>
    have hx := h x (by simp)
    simp only [updateFirst, hx, Bool.false_eq_true, if_false, List.cons.injEq, true_and]
    exact ih (fun y hy => h y (by simp [hy]))

theorem length_updateFirst {α : Type} (p : α → Bool) (f : α → α) (l : List α) :
    (updateFirst p f l).length = l.length := by
  induction l with
  | nil => rfl
  | cons x xs ih =>
    by_cases hx : p x
    · simp [updateFirst, hx]
    · simp [updateFirst, hx, ih]

theorem find?_updateFirst {α : Type} (p : α → Bool) (f : α → α) (l : List α)
    (hf : ∀ x, p x = true → p (f x) = true) :
    (updateFirst p f l).find? p = (l.find? p).map f := by
  induction l with
  | nil => rfl
  | cons x xs ih =>
    by_cases hx : p x
    · simp [updateFirst, hx, List.find?_cons_of_pos, hf x hx]
    · simp only [updateFirst, hx, Bool.false_eq_true, if_false]
      rw [List.find?_cons_of_neg _ (by simp [hx]), List.find?_cons_of_neg _ (by simp [hx]), ih]

theorem updateFirst_updateFirst {α : Type} (p : α → Bool) (f g : α → α) (l : List α)
    (hf : ∀ x, p x = true → p (f x) = true) :
    updateFirst p g (updateFirst p f l) = updateFirst p (fun x => g (f x)) l := by
  induction l with
  | nil => rfl
  | cons x xs ih =>
    by_cases hx : p x
    · simp [updateFirst, hx, hf x hx]
    · simp [updateFirst, hx, ih]

theorem mem_updateFirst_of_neg {α : Type} (p : α → Bool) (f : α → α) (x : α) (l : List α)
    (hx : x ∈ l) (hpx : p x = false) : x ∈ updateFirst p f l := by
  induction l with
  | nil => cases hx
  | cons y ys ih =>
    by_cases hy : p y
    · rcases List.mem_cons.mp hx with h | h
      · subst h; rw [hpx] at hy; cases hy
      · simp [updateFirst, hy, h]
    · rcases List.mem_cons.mp hx with h | h
      · subst h; simp [updateFirst, hy]
      · simp [updateFirst, hy, ih h]

theorem find?_updateEventById (event_id : Nat) (f : Event → Event) (evs : List Event)
    (hf : ∀ e, (f e).id = e.id) :
    (updateEventById event_id f evs).find? (fun e => e.id == event_id)
      = (evs.find? (fun e => e.id == event_id)).map f := by
  apply find?_updateFirst
  intro e he
  simpa [hf e] using he

/-- C8: `archive_expired_events` maps `archiveStep` over all events, and
`archiveStep` flips an event to ARCHIVED iff its status is ACTIVE and its
`event_date` (daily shape) or its `period_end` (period shape) is strictly
before `today`; in every other case — including an ACTIVE event dated
today and any non-ACTIVE status — the row is returned unchanged. -/
theorem C8_archival_predicate (today : Int) (db : DB) (e : Event) :
    (archive_expired_events today db).1.events = db.events.map (archiveStep today) ∧
    (e.status = .ACTIVE ∧
        ((∃ d, e.event_date = some d ∧ d < today) ∨ (∃ d, e.period_end = some d ∧ d < today)) →
      archiveStep today e = { e with status := .ARCHIVED }) ∧
    (¬ (e.status = .ACTIVE ∧
        ((∃ d, e.event_date = some d ∧ d < today) ∨ (∃ d, e.period_end = some d ∧ d < today))) →
      archiveStep today e = e) := by
  refine ⟨rfl, ?_, ?_⟩
  · rintro ⟨hst, ⟨d, hd, hlt⟩ | ⟨d, hd, hlt⟩⟩
    · cases hPE : e.period_end <;> simp [archiveStep, hst, hd, hlt, hPE]
    · cases hED : e.event_date <;> simp [archiveStep, hst, hd, hlt, hED]
  · intro h
    by_cases hst : e.status = .ACTIVE
    · have hnd : ∀ d, e.event_date = some d → ¬ d < today := by
        intro d hd hlt; exact h ⟨hst, Or.inl ⟨d, hd, hlt⟩⟩
      have hnp : ∀ d, e.period_end = some d → ¬ d < today := by
        intro d hd hlt; exact h ⟨hst, Or.inr ⟨d, hd, hlt⟩⟩
      cases hED : e.event_date with
      | none =>
        cases hPE : e.period_end with
        | none => simp [archiveStep, hst, hED, hPE]
        | some d => simp [archiveStep, hst, hED, hPE, hnp d hPE]
      | some d =>
        cases hPE : e.period_end with
        | none => simp [archiveStep, hst, hED, hPE, hnd d hED]
        | some d2 => simp [archiveStep, hst, hED, hPE, hnd d hED, hnp d2 hPE]
    · have : (e.status == EventStatus.ACTIVE) = false := by
        simpa using hst
      simp [archiveStep, this]

/-- C8 witness: a daily ACTIVE event dated yesterday archives; an ACTIVE
period event ending today stays; a DRAFT event with a long-past date is
untouched. -/
theorem C8_archival_predicate_witness :
    archiveStep 10 { mkEvent 1 5 .ACTIVE with event_date := some 9 }
      = { mkEvent 1 5 .ACTIVE with event_date := some 9, status := .ARCHIVED } ∧
    archiveStep 10 { mkEvent 2 5 .ACTIVE with period_end := some 10 }
      = { mkEvent 2 5 .ACTIVE with period_end := some 10 } ∧
    archiveStep 10 { mkEvent 3 5 .DRAFT with event_date := some 0 }
      = { mkEvent 3 5 .DRAFT with event_date := some 0 } :=
  ⟨(C8_archival_predicate 10 { events := [] } _).2.1
      ⟨rfl, Or.inl ⟨9, rfl, by decide⟩⟩,
   (C8_archival_predicate 10 { events := [] } _).2.2
      (by
        rintro ⟨-, ⟨d, hd, hlt⟩ | ⟨d, hd, hlt⟩⟩
        · simp [mkEvent] at hd
        · simp [mkEvent] at hd
          omega),
   (C8_archival_predicate 10 { events := [] } _).2.2
      (by rintro ⟨h, -⟩; simp [mkEvent] at h)⟩

/-- C9: a non-admin's approve or reject is denied with no state change;
a non-owner's start-payment (real or test path) is denied with no state
change and hence no Payment row created. -/
theorem C9_authorization_guards (admins : List Int) (db : DB) (actor : Int) (event_id : Nat)
    (mtext : Option String) (now : Int) (ret pub : String)
    (gw : Option (String × String)) (e : Event) :
    (actor ∉ admins → admin_approve admins db actor event_id = (db, .denied)) ∧
    (actor ∉ admins → admin_reject_reason admins db actor mtext event_id = (db, .denied)) ∧
    (findEvent db event_id = some e → e.user_id ≠ actor →
      organizer_pay_start db actor event_id ret pub gw = (db, .notOwner)) ∧
    (findEvent db event_id = some e → e.user_id ≠ actor →
      organizer_pay_test db actor event_id now = (db, .notOwner)) := by
  have hadm : actor ∉ admins → is_admin admins actor = false := by
    intro h
    simpa [is_admin] using h
  refine ⟨?_, ?_, ?_, ?_⟩
  · intro h
    simp [admin_approve, hadm h]
  · intro h
    simp [admin_reject_reason, hadm h]
  · intro hf ho
    simp [organizer_pay_start, hf, ho]
  · intro hf ho
    simp [organizer_pay_test, hf, ho]

/-- C9 witness: admin allowlist `[1]`, actor `2`, an event owned by `10`:
all four guards fire. -/
theorem C9_authorization_guards_witness :
    (admin_approve [1] { events := [mkEvent 1 10 .APPROVED_WAITING_PAYMENT] } 2 1
      = ({ events := [mkEvent 1 10 .APPROVED_WAITING_PAYMENT] }, .denied)) ∧
    (admin_reject_reason [1] { events := [mkEvent 1 10 .APPROVED_WAITING_PAYMENT] } 2
        (some ("spam")) 1
      = ({ events := [mkEvent 1 10 .APPROVED_WAITING_PAYMENT] }, .denied)) ∧
    (organizer_pay_start { events := [mkEvent 1 10 .APPROVED_WAITING_PAYMENT] } 2 1 "" "" none
      = ({ events := [mkEvent 1 10 .APPROVED_WAITING_PAYMENT] }, .notOwner)) ∧
    (organizer_pay_test { events := [mkEvent 1 10 .APPROVED_WAITING_PAYMENT] } 2 1 0
      = ({ events := [mkEvent 1 10 .APPROVED_WAITING_PAYMENT] }, .notOwner)) := by
  obtain ⟨h1, h2, h3, h4⟩ :=
    C9_authorization_guards [1] { events := [mkEvent 1 10 .APPROVED_WAITING_PAYMENT] } 2 1
      (some ("spam")) 0 "" "" none (mkEvent 1 10 .APPROVED_WAITING_PAYMENT)
  exact ⟨h1 (by decide), h2 (by decide), h3 rfl (by decide), h4 rfl (by decide)⟩

/-- C2 counterexample: `admin_approve` does not re-check the status.  On
an already-finalized (ACTIVE) event a further approve by an admin reports
success (`approved`, i.e. "Одобрено" — not "not in the expected state")
and does change state: the event drops back to APPROVED_WAITING_PAYMENT. -/
theorem C2_counterexample :
    (admin_approve [1] { events := [mkEvent 1 10 .ACTIVE] } 1 1).2 = .approved ∧
    (admin_approve [1] { events := [mkEvent 1 10 .ACTIVE] } 1 1).1.events
      = [{ mkEvent 1 10 .ACTIVE with status := .APPROVED_WAITING_PAYMENT }] ∧
    (admin_approve [1] { events := [mkEvent 1 10 .ACTIVE] } 1 1).1
      ≠ ({ events := [mkEvent 1 10 .ACTIVE] } : DB) := by
  exact ⟨by decide, by decide, by decide⟩

/-- C2 amended: the approve action performs no status re-check: for an
admin actor and any existing event — whatever its current status — it
sets APPROVED_WAITING_PAYMENT and reports success; a repeated approve
(double-click) reports success again rather than "not in expected state",
and leaves the state exactly as after the first approve. -/
theorem C2_amended_approve_no_recheck (admins : List Int) (db : DB) (actor : Int)
    (event_id : Nat) (e : Event) (hadm : is_admin admins actor = true)
    (hfind : findEvent db event_id = some e) :
    admin_approve admins db actor event_id
      = ({ db with events := updateEventById event_id setApprovedWaitingPayment db.events },
         .approved) ∧
    (admin_approve admins (admin_approve admins db actor event_id).1 actor event_id).2
      = .approved ∧
    (admin_approve admins (admin_approve admins db actor event_id).1 actor event_id).1
      = (admin_approve admins db actor event_id).1 := by
  have h1 : admin_approve admins db actor event_id
      = ({ db with events := updateEventById event_id setApprovedWaitingPayment db.events },
         .approved) := by
    simp [admin_approve, hadm, hfind]
  have hfind1 : findEvent
      ({ db with events := updateEventById event_id setApprovedWaitingPayment db.events })
      event_id = some (setApprovedWaitingPayment e) := by
    show (updateEventById event_id setApprovedWaitingPayment db.events).find?
        (fun x => x.id == event_id) = _
    rw [find?_updateEventById event_id setApprovedWaitingPayment db.events (fun _ => rfl)]
    rw [show db.events.find? (fun x => x.id == event_id) = some e from hfind]
    rfl
  have hidem : updateEventById event_id setApprovedWaitingPayment
        (updateEventById event_id setApprovedWaitingPayment db.events)
      = updateEventById event_id setApprovedWaitingPayment db.events := by
    show updateFirst _ _ (updateFirst _ _ _) = _
    rw [updateFirst_updateFirst (fun e => e.id == event_id) setApprovedWaitingPayment
        setApprovedWaitingPayment db.events (fun x hx => hx)]
    rfl
  refine ⟨h1, ?_, ?_⟩
  · rw [h1]
    simp [admin_approve, hadm, hfind1]
  · rw [h1]
    simp [admin_approve, hadm, hfind1, hidem]

/-- C2 witness: the amended behavior at a concrete PENDING_MODERATION
event with admin allowlist `[1]`. -/
theorem C2_amended_approve_no_recheck_witness :
    admin_approve [1] { events := [mkEvent 1 10 .PENDING_MODERATION] } 1 1
      = ({ events := updateEventById 1 setApprovedWaitingPayment
            [mkEvent 1 10 .PENDING_MODERATION] }, .approved) ∧
    (admin_approve [1]
        (admin_approve [1] { events := [mkEvent 1 10 .PENDING_MODERATION] } 1 1).1 1 1).2
      = .approved ∧
    (admin_approve [1]
        (admin_approve [1] { events := [mkEvent 1 10 .PENDING_MODERATION] } 1 1).1 1 1).1
      = (admin_approve [1] { events := [mkEvent 1 10 .PENDING_MODERATION] } 1 1).1 :=
  C2_amended_approve_no_recheck [1] { events := [mkEvent 1 10 .PENDING_MODERATION] } 1 1
    (mkEvent 1 10 .PENDING_MODERATION) (by decide) rfl

/-- C4 counterexample: approving a PENDING_MODERATION event whose
`reject_reason` is populated does NOT clear the reason — the row keeps
`reject_reason = some "old"` after the approve, while the claim requires
it to be set to null. -/
theorem C4_counterexample :
    (admin_approve [1]
        { events := [{ mkEvent 1 10 .PENDING_MODERATION with reject_reason := some ("old") }] }
        1 1).1.events
      = [{ mkEvent 1 10 .PENDING_MODERATION with reject_reason := some ("old"), status := .APPROVED_WAITING_PAYMENT }] ∧
    (findEvent (admin_approve [1]
        { events := [{ mkEvent 1 10 .PENDING_MODERATION with reject_reason := some ("old") }] }
        1 1).1 1).map Event.reject_reason = some (some ("old")) := by
  exact ⟨by decide, by decide⟩

/-- C4 amended: approving a PENDING_MODERATION event sets its status to
APPROVED_WAITING_PAYMENT and leaves every other field of the event —
`reject_reason` included, which is NOT cleared — unchanged; other rows
and tables are untouched. -/
theorem C4_amended_approve_frame (admins : List Int) (db : DB) (actor : Int)
    (event_id : Nat) (e : Event) (hadm : is_admin admins actor = true)
    (hfind : findEvent db event_id = some e)
    (_hpend : e.status = .PENDING_MODERATION) :
    ∃ db', admin_approve admins db actor event_id = (db', .approved) ∧
      findEvent db' event_id = some { e with status := .APPROVED_WAITING_PAYMENT } ∧
      db'.payments = db.payments ∧ db'.photos = db.photos ∧
      db'.notifyCount = db.notifyCount ∧
      db'.events.length = db.events.length ∧
      ∀ x ∈ db.events, x.id ≠ event_id → x ∈ db'.events := by
  refine ⟨{ db with events := updateEventById event_id setApprovedWaitingPayment db.events },
    by simp [admin_approve, hadm, hfind], ?_, rfl, rfl, rfl, ?_, ?_⟩
  · show (updateEventById event_id setApprovedWaitingPayment db.events).find?
        (fun x => x.id == event_id) = _
    rw [find?_updateEventById event_id setApprovedWaitingPayment db.events (fun _ => rfl)]
    rw [show db.events.find? (fun x => x.id == event_id) = some e from hfind]
    rfl
  · exact length_updateFirst _ _ _
  · intro x hx hne
    exact mem_updateFirst_of_neg _ _ x db.events hx (by simpa using hne)

/-- C4 witness: the amended frame property at a concrete
PENDING_MODERATION event carrying a stale reject reason. -/
theorem C4_amended_approve_frame_witness :
    ∃ db', admin_approve [1]
        { events := [{ mkEvent 1 10 .PENDING_MODERATION with reject_reason := some ("old") }] }
        1 1 = (db', .approved) ∧
      findEvent db' 1 = some { { mkEvent 1 10 .PENDING_MODERATION with reject_reason := some ("old") } with status := .APPROVED_WAITING_PAYMENT } ∧
      db'.payments = ([] : List Payment) ∧ db'.photos = ([] : List EventPhoto) ∧
      db'.notifyCount = 0 ∧
      db'.events.length = 1 ∧
      ∀ x ∈ [{ mkEvent 1 10 .PENDING_MODERATION with reject_reason := some ("old") }],
        x.id ≠ 1 → x ∈ db'.events :=
  C4_amended_approve_frame [1]
    { events := [{ mkEvent 1 10 .PENDING_MODERATION with reject_reason := some ("old") }] }
    1 1 { mkEvent 1 10 .PENDING_MODERATION with reject_reason := some ("old") }
    (by decide) rfl rfl

theorem find?_activate (event_id : Nat) (evs : List Event) (e : Event)
    (hfind : evs.find? (fun x => x.id == event_id) = some e) :
    (updateEventById event_id activateEvent evs).find? (fun x => x.id == event_id)
      = some (activateEvent e) := by
  rw [find?_updateEventById event_id activateEvent evs (fun _ => rfl), hfind]
  rfl

/-- C3 counterexample: the test payment-confirmation path activates a
REJECTED event (the claim allows activation only from
APPROVED_WAITING_PAYMENT or PENDING_MODERATION). -/
theorem C3_counterexample :
    (organizer_pay_test { events := [mkEvent 1 10 .REJECTED] } 10 1 0).2 = .confirmed ∧
    (organizer_pay_test { events := [mkEvent 1 10 .REJECTED] } 10 1 0).1.events
      = [{ mkEvent 1 10 .REJECTED with payment_status := .COMPLETED, status := .ACTIVE }] := by
  exact ⟨by decide, by decide⟩

/-- C3 amended: a payment confirmation (test path, and gateway webhook
success) transitions the event to ACTIVE with payment_status COMPLETED
from ANY status other than ACTIVE — including DRAFT, REJECTED and
ARCHIVED; only an already-ACTIVE event short-circuits unchanged. -/
theorem C3_amended_confirmation_from_any_status (db : DB) (actor : Int) (event_id : Nat)
    (now : Int) (e : Event) (hfind : findEvent db event_id = some e)
    (howner : e.user_id = actor) :
    (e.status ≠ .ACTIVE →
      (organizer_pay_test db actor event_id now).2 = .confirmed ∧
      findEvent (organizer_pay_test db actor event_id now).1 event_id
        = some (activateEvent e)) ∧
    (e.status = .ACTIVE → organizer_pay_test db actor event_id now = (db, .alreadyActive)) ∧
    (∀ (hasBot : Bool) (tid : String) (p : Payment) (amt : Option ℚ) (now2 : Int),
      pyStrip tid = tid → tid ≠ "" →
      db.payments.find? (fun q => q.transaction_id == some tid) = some p →
      p.event_id = some event_id → e.status ≠ .ACTIVE →
      (yookassa_webhook db hasBot ("payment.succeeded") tid ("succeeded") amt now2).2 = .ok ∧
      findEvent (yookassa_webhook db hasBot ("payment.succeeded") tid ("succeeded") amt now2).1
        event_id = some (activateEvent e)) := by
  refine ⟨?_, ?_, ?_⟩
  · intro hst
    have hstb : (e.status == EventStatus.ACTIVE) = false := by simpa using hst
    have hres : (organizer_pay_test db actor event_id now).2 = .confirmed ∧
        (organizer_pay_test db actor event_id now).1.events
          = updateEventById event_id activateEvent db.events := by
      rcases hp : db.payments.find? (fun p => p.event_id == some e.id) with - | ep
      · constructor <;> simp [organizer_pay_test, hfind, howner, hstb, hp]
      · by_cases hc : ep.status = PaymentStatus.COMPLETED
        · constructor <;> simp [organizer_pay_test, hfind, howner, hstb, hp, hc]
        · have hcb : (ep.status == PaymentStatus.COMPLETED) = false := by simpa using hc
          constructor <;> simp [organizer_pay_test, hfind, howner, hstb, hp, hcb]
    refine ⟨hres.1, ?_⟩
    show ((organizer_pay_test db actor event_id now).1).events.find?
        (fun x => x.id == event_id) = _
    rw [hres.2]
    exact find?_activate event_id db.events e hfind
  · intro hst
    simp [organizer_pay_test, hfind, howner, hst]
  · intro hasBot tid p amt now2 htrim hne hp hpe hst
    have hidb : (pyStrip tid == "") = false := by
      rw [htrim]
      simpa using hne
    have hstb : (e.status != EventStatus.ACTIVE) = true := by simpa using hst
    have hres : (yookassa_webhook db hasBot ("payment.succeeded") tid ("succeeded") amt now2).2
          = .ok ∧
        (yookassa_webhook db hasBot ("payment.succeeded") tid ("succeeded") amt now2).1.events
          = updateEventById event_id activateEvent db.events := by
      constructor <;> simp [yookassa_webhook, hidb, htrim, hp, hpe, hfind, hstb, hne]
    refine ⟨hres.1, ?_⟩
    show ((yookassa_webhook db hasBot ("payment.succeeded") tid ("succeeded") amt now2).1).events.find?
        (fun x => x.id == event_id) = _
    rw [hres.2]
    exact find?_activate event_id db.events e hfind

/-- C3 witness: the amended behavior on a concrete DRAFT event (test
path) and on a REJECTED event with a pending gateway payment (webhook
path); a concrete ACTIVE event short-circuits. -/
theorem C3_amended_confirmation_from_any_status_witness :
    ((organizer_pay_test { events := [mkEvent 1 10 .DRAFT] } 10 1 0).2 = .confirmed ∧
      findEvent (organizer_pay_test { events := [mkEvent 1 10 .DRAFT] } 10 1 0).1 1
        = some (activateEvent (mkEvent 1 10 .DRAFT))) ∧
    (organizer_pay_test { events := [mkEvent 2 10 .ACTIVE] } 10 2 0
      = ({ events := [mkEvent 2 10 .ACTIVE] }, .alreadyActive)) ∧
    ((yookassa_webhook
        { events := [mkEvent 3 10 .REJECTED],
          payments := [{ user_id := 10, event_id := some 3, category := .CONCERT,
                         pricing_model := .DAILY, amount := 1499,
                         transaction_id := some ("yk-1") }] }
        true ("payment.succeeded") ("yk-1") ("succeeded") none 7).2 = .ok ∧
      findEvent (yookassa_webhook
        { events := [mkEvent 3 10 .REJECTED],
          payments := [{ user_id := 10, event_id := some 3, category := .CONCERT,
                         pricing_model := .DAILY, amount := 1499,
                         transaction_id := some ("yk-1") }] }
        true ("payment.succeeded") ("yk-1") ("succeeded") none 7).1 3
        = some (activateEvent (mkEvent 3 10 .REJECTED))) := by
  refine ⟨?_, ?_, ?_⟩
  · exact (C3_amended_confirmation_from_any_status { events := [mkEvent 1 10 .DRAFT] }
      10 1 0 (mkEvent 1 10 .DRAFT) rfl rfl).1 (by decide)
  · exact (C3_amended_confirmation_from_any_status { events := [mkEvent 2 10 .ACTIVE] }
      10 2 0 (mkEvent 2 10 .ACTIVE) rfl rfl).2.1 rfl
  · exact (C3_amended_confirmation_from_any_status
      { events := [mkEvent 3 10 .REJECTED],
        payments := [{ user_id := 10, event_id := some 3, category := .CONCERT,
                       pricing_model := .DAILY, amount := 1499,
                       transaction_id := some ("yk-1") }] }
      10 3 0 (mkEvent 3 10 .REJECTED) rfl rfl).2.2 true ("yk-1") _ none 7
      (by decide) (by decide) rfl rfl (by decide)

/-- C1: once an event is ACTIVE, a further confirmation attempt has no
further side effects, and across the two confirmation paths the publish
fan-out runs exactly once.  (i) the test-confirm on an ACTIVE event
changes nothing; (ii) a success webhook whose payment points at an ACTIVE
event leaves the events, the fan-out counter and the number of payment
rows unchanged; (iii) from APPROVED_WAITING_PAYMENT with the single
pending payment row, running test-confirm and the success webhook in
either order ends with exactly one fan-out invocation, one payment row,
and the event ACTIVE/COMPLETED. -/
theorem C1_payment_confirmation_idempotent (db : DB) (actor : Int) (event_id : Nat)
    (now now2 : Int) (e : Event) (p0 : Payment) (tid s : String)
    (hfind : findEvent db event_id = some e) :
    (e.status = .ACTIVE → (organizer_pay_test db actor event_id now).1 = db) ∧
    (∀ (hasBot : Bool) (p : Payment) (amt : Option ℚ),
      pyStrip tid = tid → tid ≠ "" →
      db.payments.find? (fun q => q.transaction_id == some tid) = some p →
      p.event_id = some event_id → e.status = .ACTIVE →
      (yookassa_webhook db hasBot ("payment.succeeded") tid s amt now2).1.events = db.events ∧
      (yookassa_webhook db hasBot ("payment.succeeded") tid s amt now2).1.notifyCount
        = db.notifyCount ∧
      (yookassa_webhook db hasBot ("payment.succeeded") tid s amt now2).1.payments.length
        = db.payments.length) ∧
    (db.payments = [p0] → p0.event_id = some event_id → p0.transaction_id = some tid →
      p0.status = .PENDING → pyStrip tid = tid → tid ≠ "" →
      e.status = .APPROVED_WAITING_PAYMENT → e.user_id = actor →
      ((yookassa_webhook (organizer_pay_test db actor event_id now).1 true
          ("payment.succeeded") tid s none now2).1.notifyCount = db.notifyCount + 1 ∧
       (yookassa_webhook (organizer_pay_test db actor event_id now).1 true
          ("payment.succeeded") tid s none now2).1.payments.length = 1 ∧
       findEvent (yookassa_webhook (organizer_pay_test db actor event_id now).1 true
          ("payment.succeeded") tid s none now2).1 event_id = some (activateEvent e)) ∧
      ((organizer_pay_test (yookassa_webhook db true ("payment.succeeded") tid s none now2).1
          actor event_id now).1.notifyCount = db.notifyCount + 1 ∧
       (organizer_pay_test (yookassa_webhook db true ("payment.succeeded") tid s none now2).1
          actor event_id now).1.payments.length = 1 ∧
       findEvent (organizer_pay_test (yookassa_webhook db true
          ("payment.succeeded") tid s none now2).1 actor event_id now).1 event_id
          = some (activateEvent e))) := by
  have hfind' : db.events.find? (fun x => x.id == event_id) = some e := hfind
  have heid : e.id = event_id := by simpa using List.find?_some hfind'
  refine ⟨?_, ?_, ?_⟩
  · intro hst
    have hstb : (e.status == EventStatus.ACTIVE) = true := by simp [hst]
    rcases Bool.eq_false_or_eq_true (e.user_id != actor) with ho | ho
    · simp [organizer_pay_test, hfind, ho, hst]
    · simp [organizer_pay_test, hfind, ho, hst]
  · intro hasBot p amt htrim hne hp hpe hst
    have hstb : (e.status != EventStatus.ACTIVE) = false := by simp [hst]
    have hidb : (pyStrip tid == "") = false := by
      rw [htrim]
      simpa using hne
    rcases amt with - | a
    · refine ⟨?_, ?_, ?_⟩ <;>
        simp [yookassa_webhook, hidb, htrim, hne, hp, hpe, hfind, hstb, length_updateFirst]
    · by_cases hz : p.amount = 0 <;>
        refine ⟨?_, ?_, ?_⟩ <;>
        simp [yookassa_webhook, hidb, htrim, hne, hp, hpe, hfind, hstb, hz, length_updateFirst]
  · intro hps hpe htid hpend htrim hne hst howner
    have hstb : (e.status == EventStatus.ACTIVE) = false := by simp [hst]
    have hob : (e.user_id != actor) = false := by simp [howner]
    have hpeb : (p0.event_id == some e.id) = true := by
      rw [heid]
      simp [hpe]
    have hpb : (p0.status == PaymentStatus.COMPLETED) = false := by simp [hpend]
    have hA : organizer_pay_test db actor event_id now
        = ({ db with events := updateEventById event_id activateEvent db.events,
                     payments := [completeTestPayment now p0],
                     notifyCount := db.notifyCount + 1 }, .confirmed) := by
      simp [organizer_pay_test, hfind, hob, hstb, hps, hpeb, hpb, updateFirst]
    have hAfind : (updateEventById event_id activateEvent db.events).find?
        (fun x => x.id == event_id) = some (activateEvent e) :=
      find?_activate event_id db.events e hfind'
    have hidb : (pyStrip tid == "") = false := by
      rw [htrim]
      simpa using hne
    constructor
    · rw [hA]
      refine ⟨?_, ?_, ?_⟩
      · simp [yookassa_webhook, findEvent, hidb, htid, htrim, hne, hpe, hAfind, activateEvent,
          completeTestPayment, updateFirst]
      · simp [yookassa_webhook, findEvent, hidb, htid, htrim, hne, hpe, hAfind, activateEvent,
          completeTestPayment, updateFirst]
      · have : (yookassa_webhook
            ({ db with events := updateEventById event_id activateEvent db.events,
                       payments := [completeTestPayment now p0],
                       notifyCount := db.notifyCount + 1 } : DB) true
            ("payment.succeeded") tid s none now2).1.events
            = updateEventById event_id activateEvent db.events := by
          simp [yookassa_webhook, findEvent, hidb, htid, htrim, hne, hpe, hAfind, activateEvent,
            completeTestPayment, updateFirst]
        show (yookassa_webhook _ true ("payment.succeeded") tid s none now2).1.events.find?
            (fun x => x.id == event_id) = _
        rw [this]
        exact find?_activate event_id db.events e hfind'
    · have hWfindp : db.payments.find? (fun q => q.transaction_id == some tid) = some p0 := by
        rw [hps]
        simp [htid]
      have hstb2 : (e.status != EventStatus.ACTIVE) = true := by simp [hst]
      have hpb2 : (p0.status != PaymentStatus.COMPLETED) = true := by simp [hpend]
      have hW : yookassa_webhook db true ("payment.succeeded") tid s none now2
          = ({ db with events := updateEventById event_id activateEvent db.events,
                       payments := [completePayment now2 p0],
                       notifyCount := db.notifyCount + 1 }, .ok) := by
        simp [yookassa_webhook, hidb, htrim, htid, hne, hWfindp, hpe, hfind, hstb2, hpb2,
          hps, updateFirst, completePayment]
      have hWfind : (updateEventById event_id activateEvent db.events).find?
          (fun x => x.id == event_id) = some (activateEvent e) :=
        find?_activate event_id db.events e hfind'
      rw [hW]
      have hob2 : ((activateEvent e).user_id != actor) = false := by
        simp [activateEvent, howner]
      have hact : ((activateEvent e).status == EventStatus.ACTIVE) = true := by
        simp [activateEvent]
      refine ⟨?_, ?_, ?_⟩
      · simp [organizer_pay_test, findEvent, hWfind, hob2, hact]
      · simp [organizer_pay_test, findEvent, hWfind, hob2, hact]
      · have : (organizer_pay_test
            ({ db with events := updateEventById event_id activateEvent db.events,
                       payments := [completePayment now2 p0],
                       notifyCount := db.notifyCount + 1 } : DB) actor event_id now).1
            = ({ db with events := updateEventById event_id activateEvent db.events,
                         payments := [completePayment now2 p0],
                         notifyCount := db.notifyCount + 1 } : DB) := by
          simp [organizer_pay_test, findEvent, hWfind, hob2, hact]
        rw [this]
        exact hWfind

/-- C1 witness: the three parts of the idempotency theorem at concrete
states: an ACTIVE event with its payment row, and an
APPROVED_WAITING_PAYMENT event driven through both confirmation orders. -/
theorem C1_payment_confirmation_idempotent_witness :
    ((organizer_pay_test sampleActiveDB 10 1 0).1 = sampleActiveDB) ∧
    ((yookassa_webhook sampleActiveDB true ("payment.succeeded") ("yk-1") ("succeeded")
        none 1).1.events = sampleActiveDB.events ∧
     (yookassa_webhook sampleActiveDB true ("payment.succeeded") ("yk-1") ("succeeded")
        none 1).1.notifyCount = sampleActiveDB.notifyCount ∧
     (yookassa_webhook sampleActiveDB true ("payment.succeeded") ("yk-1") ("succeeded")
        none 1).1.payments.length = sampleActiveDB.payments.length) ∧
    ((yookassa_webhook (organizer_pay_test sampleApprovedDB 10 1 0).1 true
        ("payment.succeeded") ("yk-1") ("succeeded") none 1).1.notifyCount
        = sampleApprovedDB.notifyCount + 1 ∧
     (yookassa_webhook (organizer_pay_test sampleApprovedDB 10 1 0).1 true
        ("payment.succeeded") ("yk-1") ("succeeded") none 1).1.payments.length = 1 ∧
     findEvent (yookassa_webhook (organizer_pay_test sampleApprovedDB 10 1 0).1 true
        ("payment.succeeded") ("yk-1") ("succeeded") none 1).1 1
        = some (activateEvent (mkEvent 1 10 .APPROVED_WAITING_PAYMENT))) ∧
    ((organizer_pay_test (yookassa_webhook sampleApprovedDB true ("payment.succeeded")
        ("yk-1") ("succeeded") none 1).1 10 1 0).1.notifyCount
        = sampleApprovedDB.notifyCount + 1 ∧
     (organizer_pay_test (yookassa_webhook sampleApprovedDB true ("payment.succeeded")
        ("yk-1") ("succeeded") none 1).1 10 1 0).1.payments.length = 1 ∧
     findEvent (organizer_pay_test (yookassa_webhook sampleApprovedDB true
        ("payment.succeeded") ("yk-1") ("succeeded") none 1).1 10 1 0).1 1
        = some (activateEvent (mkEvent 1 10 .APPROVED_WAITING_PAYMENT))) := by
  have h1 := C1_payment_confirmation_idempotent sampleActiveDB 10 1 0 1
    (mkEvent 1 10 .ACTIVE) (mkPendingPayment 1 10 ("yk-1")) ("yk-1") ("succeeded") rfl
  have h2 := C1_payment_confirmation_idempotent sampleApprovedDB 10 1 0 1
    (mkEvent 1 10 .APPROVED_WAITING_PAYMENT) (mkPendingPayment 1 10 ("yk-1"))
    ("yk-1") ("succeeded") rfl
  have h3 := h2.2.2 rfl rfl rfl rfl (by decide) (by decide) rfl rfl
  exact ⟨h1.1 rfl,
    h1.2.1 true (mkPendingPayment 1 10 ("yk-1")) none (by decide) (by decide) rfl rfl rfl,
    h3.1, h3.2⟩

/-- C10 counterexample: with no price mode selected and category CONCERT,
the input "500" — a single non-negative number — is rejected (the handler
keeps an old minimum-1000 rule for concerts), so the wizard does not
advance; the claim requires acceptance for every category. -/
theorem C10_counterexample :
    organizer_admission_price
        { admission_price_mode := none, category := some ("CONCERT") } (some ("500"))
      = .rejectedConcertMin ∧
    ∀ q, organizer_admission_price
        { admission_price_mode := none, category := some ("CONCERT") } (some ("500"))
      ≠ .advanced (.single q) := by
  refine ⟨by decide, ?_⟩
  intro q h
  rw [show organizer_admission_price
      { admission_price_mode := none, category := some ("CONCERT") } (some ("500"))
      = .rejectedConcertMin from by decide] at h
  cases h

/-- C10 amended: with no price mode selected, an input parsing as a
single non-negative number is accepted and the wizard advances — except
that for category CONCERT a non-zero price below 1000 is rejected by a
kept concert-minimum rule; negative or non-numeric input is rejected. -/
theorem C10_amended_single_price_fallback (data : WizardData) (message_text : String)
    (hmode : data.admission_price_mode = none) :
    (∀ q : ℚ, parseDecimal? (pyReplaceChar (',') ('.') (pyStrip message_text)) = some q →
      0 ≤ q → (data.category = some ("CONCERT") → q = 0 ∨ 1000 ≤ q) →
      organizer_admission_price data (some message_text) = .advanced (.single q)) ∧
    (parseDecimal? (pyReplaceChar (',') ('.') (pyStrip message_text)) = none →
      organizer_admission_price data (some message_text) = .rejected) ∧
    (∀ q : ℚ, parseDecimal? (pyReplaceChar (',') ('.') (pyStrip message_text)) = some q →
      q < 0 → organizer_admission_price data (some message_text) = .rejected) ∧
    (∀ q : ℚ, parseDecimal? (pyReplaceChar (',') ('.') (pyStrip message_text)) = some q →
      data.category = some ("CONCERT") → q ≠ 0 → 0 ≤ q → q < 1000 →
      organizer_admission_price data (some message_text) = .rejectedConcertMin) := by
  refine ⟨?_, ?_, ?_, ?_⟩
  · intro q hq h0 hcat
    have hnl : ¬ q < 0 := not_lt.mpr h0
    by_cases hc : data.category = some ("CONCERT")
    · rcases hcat hc with h | h
      · simp [organizer_admission_price, hmode, admissionFallback, hq, hnl, h]
      · have : ¬ q < 1000 := not_lt.mpr h
        simp [organizer_admission_price, hmode, admissionFallback, hq, hnl, hc, this]
    · have hcb : (data.category == some ("CONCERT")) = false := by
        simpa using hc
      simp [organizer_admission_price, hmode, admissionFallback, hq, hnl, hcb]
  · intro hq
    simp [organizer_admission_price, hmode, admissionFallback, hq]
  · intro q hq hneg
    simp [organizer_admission_price, hmode, admissionFallback, hq, hneg]
  · intro q hq hc hne h0 hlt
    have hnl : ¬ q < 0 := not_lt.mpr h0
    simp [organizer_admission_price, hmode, admissionFallback, hq, hnl, hc, hne, hlt]

/-- C10 witness: the amended rule at concrete inputs — CONCERT accepts
"0" and "1500", a LECTURE accepts "500", non-numeric "abc" and negative
"-5" are rejected, and CONCERT rejects "500" with the minimum message. -/
theorem C10_amended_single_price_fallback_witness :
    organizer_admission_price
        { admission_price_mode := none, category := some ("CONCERT") } (some ("1500"))
      = .advanced (.single 1500) ∧
    organizer_admission_price
        { admission_price_mode := none, category := some ("LECTURE") } (some ("500"))
      = .advanced (.single 500) ∧
    organizer_admission_price
        { admission_price_mode := none, category := some ("LECTURE") } (some ("abc"))
      = .rejected ∧
    organizer_admission_price
        { admission_price_mode := none, category := some ("CONCERT") } (some ("500"))
      = .rejectedConcertMin := by
  refine ⟨?_, ?_, ?_, ?_⟩
  · exact (C10_amended_single_price_fallback
      { admission_price_mode := none, category := some ("CONCERT") } ("1500") rfl).1
      1500 (by decide) (by decide) (fun _ => Or.inr (by decide))
  · exact (C10_amended_single_price_fallback
      { admission_price_mode := none, category := some ("LECTURE") } ("500") rfl).1
      500 (by decide) (by decide) (fun h => absurd h (by decide))
  · exact (C10_amended_single_price_fallback
      { admission_price_mode := none, category := some ("LECTURE") } ("abc") rfl).2.1
      (by decide)
  · exact (C10_amended_single_price_fallback
      { admission_price_mode := none, category := some ("CONCERT") } ("500") rfl).2.2.2
      500 (by decide) rfl (by decide) (by decide) (by decide)

theorem dictHas_map_overwrite (out : List (String × ℚ)) (k k' : String) (v : ℚ) :
    dictHas (out.map (fun kv => if kv.1 == k' then (k', v) else kv)) k = dictHas out k := by
  induction out with
  | nil => rfl
  | cons kv rest ih =>
    obtain ⟨k1, v1⟩ := kv
    by_cases h : k1 = k'
    · subst h
      by_cases hk : k1 = k
      · subst hk
        simp [dictHas]
      · simp [dictHas, hk]
        simpa using ih
    · by_cases hk : k1 = k
      · subst hk
        simp [dictHas, h]
      · simp [dictHas, h, hk]
        simpa using ih

theorem dictHas_append_single (out : List (String × ℚ)) (k k' : String) (v : ℚ) :
    dictHas (out ++ [(k', v)]) k = (dictHas out k || (k' == k)) := by
  induction out with
  | nil =>
    by_cases hk : k' = k
    · subst hk
      simp [dictHas]
    · simp [dictHas, hk]
  | cons kv rest ih =>
    obtain ⟨k1, v1⟩ := kv
    by_cases hk : k1 = k
    · subst hk
      simp [dictHas]
    · simp [dictHas, hk]
      simpa using ih

theorem dictHas_dictInsert (out : List (String × ℚ)) (k k' : String) (v : ℚ) :
    dictHas (dictInsert out k' v) k = (dictHas out k || (k' == k)) := by
  unfold dictInsert
  by_cases h : dictHas out k'
  · rw [if_pos h, dictHas_map_overwrite]
    by_cases hk : k' = k
    · subst hk
      simp [h]
    · simp [hk]
  · rw [if_neg h, dictHas_append_single]

theorem parseTierParts_ok_iff (keys : List String) (parts : List String) :
    ∀ out, (∃ d, parseTierParts keys parts out = Except.ok d) ↔
      ∀ p ∈ parts, ∃ k v q, partKV? p = some (k, v) ∧ k ∈ keys ∧
        parseDecimal? v = some q ∧ 0 ≤ q := by
  induction parts with
  | nil => intro out; simp [parseTierParts]
  | cons p rest ih =>
    intro out
    rcases hkv : partKV? p with - | ⟨k, v⟩
    · constructor
      · rintro ⟨d, hd⟩
        simp [parseTierParts, hkv] at hd
      · intro hall
        obtain ⟨k, v, q, hkv', -, -, -⟩ := hall p (by simp)
        rw [hkv] at hkv'
        cases hkv'
    · by_cases hc : keys.contains k
      · have hmem : k ∈ keys := by simpa using hc
        rcases hq : parseDecimal? v with - | q
        · constructor
          · rintro ⟨d, hd⟩
            simp [parseTierParts, hkv, hc, hmem, hq] at hd
          · intro hall
            obtain ⟨k', v', q', hkv', -, hq', -⟩ := hall p (by simp)
            rw [hkv] at hkv'
            cases hkv'
            rw [hq] at hq'
            cases hq'
        · by_cases hneg : q < 0
          · constructor
            · rintro ⟨d, hd⟩
              simp [parseTierParts, hkv, hc, hmem, hq, hneg] at hd
            · intro hall
              obtain ⟨k', v', q', hkv', -, hq', h0'⟩ := hall p (by simp)
              rw [hkv] at hkv'
              cases hkv'
              rw [hq] at hq'
              cases hq'
              exact absurd hneg (not_lt.mpr h0')
          · constructor
            · rintro ⟨d, hd⟩
              simp only [parseTierParts, hkv, hc, hq, hneg, if_true, if_false] at hd
              intro p' hp'
              rcases List.mem_cons.mp hp' with rfl | hp'
              · exact ⟨k, v, q, hkv, hmem, hq, not_lt.mp hneg⟩
              · exact ((ih _).mp ⟨d, by simpa using hd⟩) p' hp'
            · intro hall
              obtain ⟨d, hd⟩ := (ih (dictInsert out k q)).mpr
                (fun p' hp' => hall p' (by simp [hp']))
              exact ⟨d, by simp [parseTierParts, hkv, hc, hmem, hq, hneg, hd]⟩
      · have hnm : k ∉ keys := by simpa using hc
        constructor
        · rintro ⟨d, hd⟩
          simp [parseTierParts, hkv, hnm] at hd
        · intro hall
          obtain ⟨k', v', q', hkv', hmem, -, -⟩ := hall p (by simp)
          rw [hkv] at hkv'
          cases hkv'
          exact absurd hmem hnm

theorem parseTierParts_cover (keys parts : List String) :
    ∀ (out d : List (String × ℚ)) (k : String),
      parseTierParts keys parts out = Except.ok d →
      (dictHas d k = true ↔
        (dictHas out k = true ∨ ∃ p ∈ parts, ∃ v, partKV? p = some (k, v))) := by
  induction parts with
  | nil =>
    intro out d k h
    simp [parseTierParts] at h
    subst h
    simp
  | cons p rest ih =>
    intro out d k h
    rcases hkv : partKV? p with - | ⟨k', v⟩
    · simp [parseTierParts, hkv] at h
    · by_cases hc : keys.contains k' = true
      · have hmem : k' ∈ keys := by simpa using hc
        rcases hq : parseDecimal? v with - | q
        · simp [parseTierParts, hkv, hmem, hq] at h
        · by_cases hneg : q < 0
          · simp [parseTierParts, hkv, hmem, hq, hneg] at h
          · simp only [parseTierParts, hkv, hmem, hq, hneg, if_true, if_false] at h
            have hrec := ih (dictInsert out k' q) d k (by simpa [hmem] using h)
            rw [hrec, dictHas_dictInsert]
            simp only [Bool.or_eq_true, beq_iff_eq]
            constructor
            · rintro ((hs | rfl) | ⟨p', hp', v', hv'⟩)
              · exact Or.inl hs
              · exact Or.inr ⟨p, by simp, v, hkv⟩
              · exact Or.inr ⟨p', by simp [hp'], v', hv'⟩
            · rintro (hs | ⟨p', hp', v', hv'⟩)
              · exact Or.inl (Or.inl hs)
              · rcases List.mem_cons.mp hp' with rfl | hp'
                · rw [hkv] at hv'
                  cases hv'
                  exact Or.inl (Or.inr rfl)
                · exact Or.inr ⟨p', hp', v', hv'⟩
      · have hnm : k' ∉ keys := by simpa using hc
        simp [parseTierParts, hkv, hnm] at h

theorem _parse_tier_prices_ok_iff (text : String) (keys : List String) :
    (∃ d, _parse_tier_prices text keys = Except.ok d) ↔ specTierAccept text keys := by
  constructor
  · rintro ⟨d, hd⟩
    unfold _parse_tier_prices at hd
    by_cases hne : (tierParts text).isEmpty
    · rw [if_pos hne] at hd
      cases hd
    · rw [if_neg hne] at hd
      rcases hpt : parseTierParts keys (tierParts text) [] with e | d0 <;> rw [hpt] at hd
      · cases hd
      · by_cases hall : keys.all (fun k => dictHas d0 k)
        · refine ⟨by simpa [List.isEmpty_iff] using hne, ?_, ?_⟩
          · exact (parseTierParts_ok_iff keys (tierParts text) []).mp ⟨d0, hpt⟩
          · intro k hk
            have hsome : dictHas d0 k = true := by
              have := List.all_eq_true.mp hall k hk
              simpa using this
            have hcov := (parseTierParts_cover keys (tierParts text) [] d0 k hpt).mp hsome
            rcases hcov with hfalse | hex
            · simp [dictHas] at hfalse
            · exact hex
        · simp [hall] at hd
  · rintro ⟨hne, hparts, hcover⟩
    obtain ⟨d0, hpt⟩ := (parseTierParts_ok_iff keys (tierParts text) []).mpr hparts
    have hall : keys.all (fun k => dictHas d0 k) := by
      rw [List.all_eq_true]
      intro k hk
      have hex := hcover k hk
      have := (parseTierParts_cover keys (tierParts text) [] d0 k hpt).mpr
        (Or.inr (by simpa using hex))
      simpa using this
    refine ⟨d0, ?_⟩
    unfold _parse_tier_prices
    rw [if_neg (by simpa [List.isEmpty_iff] using hne), hpt]
    simp [hall]

/-- C6: with a tier price mode selected, the admission-price input is
accepted — the wizard stores the tier map and advances — iff the
comma/semicolon-separated `key=value` list covers exactly the mode's
required tier keys with non-negative numeric values (order-independent,
per `specTierAccept`); otherwise the step rejects and does not advance. -/
theorem C6_tier_price_validation (data : WizardData) (message_text : String)
    (mode : String) (keys : List String)
    (hmode : data.admission_price_mode = some mode)
    (hkeys : PRICE_TIER_PRESETS.lookup mode = some keys) :
    ((∃ d, organizer_admission_price data (some message_text)
        = .advanced (.tiers d)) ↔ specTierAccept (pyStrip message_text) keys) ∧
    (¬ specTierAccept (pyStrip message_text) keys →
      organizer_admission_price data (some message_text) = .rejected) := by
  have hred : organizer_admission_price data (some message_text)
      = match _parse_tier_prices (pyStrip message_text) keys with
        | Except.ok tiers => AdmissionStepResult.advanced (.tiers tiers)
        | Except.error _ => AdmissionStepResult.rejected := by
    simp only [organizer_admission_price, Option.getD_some, hmode, hkeys]
  constructor
  · constructor
    · rintro ⟨d, hd⟩
      rw [hred] at hd
      rcases hres : _parse_tier_prices (pyStrip message_text) keys with e | d0 <;>
        rw [hres] at hd
      · cases hd
      · exact (_parse_tier_prices_ok_iff _ _).mp ⟨d0, hres⟩
    · intro hspec
      obtain ⟨d0, hres⟩ := (_parse_tier_prices_ok_iff _ _).mpr hspec
      exact ⟨d0, by rw [hred, hres]⟩
  · intro hnspec
    rcases hres : _parse_tier_prices (pyStrip message_text) keys with e | d0
    · rw [hred, hres]
    · exact absurd ((_parse_tier_prices_ok_iff _ _).mp ⟨d0, hres⟩) hnspec

/-- C6 witness: the acceptance characterization at the "child_adult"
mode (required keys "дети"/"взрослые") on a concrete input. -/
theorem C6_tier_price_validation_witness :
    ((∃ d, organizer_admission_price
        { admission_price_mode := some ("child_adult"), category := none }
        (some ("взрослые=200, дети=100")) = .advanced (.tiers d)) ↔
      specTierAccept (pyStrip ("взрослые=200, дети=100")) ["дети", "взрослые"]) ∧
    (¬ specTierAccept (pyStrip ("взрослые=200, дети=100")) ["дети", "взрослые"] →
      organizer_admission_price
        { admission_price_mode := some ("child_adult"), category := none }
        (some ("взрослые=200, дети=100")) = .rejected) :=
  C6_tier_price_validation
    { admission_price_mode := some ("child_adult"), category := none }
    ("взрослые=200, дети=100") ("child_adult") (["дети", "взрослые"]) rfl rfl

theorem renumberPhotos_map_position (new_id : Nat) (ps : List EventPhoto) :
    ∀ pos, (renumberPhotos new_id pos ps).map EventPhoto.position
      = List.range' pos ps.length := by
  induction ps with
  | nil => intro pos; rfl
  | cons p rest ih =>
    intro pos
    simp [renumberPhotos, List.range', ih]

theorem renumberPhotos_map_file_id (new_id : Nat) (ps : List EventPhoto) :
    ∀ pos, (renumberPhotos new_id pos ps).map EventPhoto.file_id
      = ps.map EventPhoto.file_id := by
  induction ps with
  | nil => intro pos; rfl
  | cons p rest ih =>
    intro pos
    simp [renumberPhotos, ih]

theorem renumberPhotos_event_id (new_id : Nat) (ps : List EventPhoto) :
    ∀ pos, ∀ q ∈ renumberPhotos new_id pos ps, q.event_id = new_id := by
  induction ps with
  | nil =>
    intro pos q hq
    cases hq
  | cons p rest ih =>
    intro pos q hq
    rcases List.mem_cons.mp hq with rfl | hq
    · rfl
    · exact ih (pos + 1) q hq

theorem renumberPhotos_pos_le (new_id : Nat) (ps : List EventPhoto) :
    ∀ pos, ∀ q ∈ renumberPhotos new_id pos ps, pos ≤ q.position := by
  induction ps with
  | nil =>
    intro pos q hq
    cases hq
  | cons p rest ih =>
    intro pos q hq
    rcases List.mem_cons.mp hq with rfl | hq
    · exact Nat.le_refl pos
    · exact Nat.le_of_succ_le (ih (pos + 1) q hq)

theorem renumberPhotos_sorted (new_id : Nat) (ps : List EventPhoto) :
    ∀ pos, List.Sorted (fun a b : EventPhoto => a.position ≤ b.position)
      (renumberPhotos new_id pos ps) := by
  induction ps with
  | nil => intro pos; exact List.sorted_nil
  | cons p rest ih =>
    intro pos
    exact List.pairwise_cons.mpr
      ⟨fun q hq => Nat.le_of_succ_le (renumberPhotos_pos_le new_id rest (pos + 1) q hq),
       ih (pos + 1)⟩

/-- C7: fix-and-resubmit of a REJECTED event by its owner appends one new
event under the fresh id with all content fields copied, status
PENDING_MODERATION, payment_status PENDING and no reject reason
(`cloneEvent`); the original event row (reject_reason included) and its
photos are untouched; the new event's photos carry the same file ids in
the same order with dense positions `1..N`; a non-owner or a non-REJECTED
status refuses with no state change. -/
theorem C7_resubmission_clone (db : DB) (actor : Int) (old_event_id new_event_id : Nat)
    (old_event : Event) (hfind : findEvent db old_event_id = some old_event)
    (hfresh : ∀ e ∈ db.events, e.id ≠ new_event_id)
    (hfreshp : ∀ ph ∈ db.photos, ph.event_id ≠ new_event_id)
    (hcnt : (photosOf db.photos old_event_id).length ≤ 5) :
    (old_event.user_id = actor → old_event.status = .REJECTED →
      organizer_fix_and_resubmit db actor old_event_id new_event_id
        = ({ db with events := db.events ++ [cloneEvent old_event new_event_id],
                     photos := db.photos
                       ++ renumberPhotos new_event_id 1 (photosOf db.photos old_event_id) },
           .resubmitted new_event_id) ∧
      findEvent (organizer_fix_and_resubmit db actor old_event_id new_event_id).1
          old_event_id = some old_event ∧
      photosOf (organizer_fix_and_resubmit db actor old_event_id new_event_id).1.photos
          new_event_id = renumberPhotos new_event_id 1 (photosOf db.photos old_event_id) ∧
      (photosOf (organizer_fix_and_resubmit db actor old_event_id new_event_id).1.photos
          new_event_id).map EventPhoto.file_id
        = (photosOf db.photos old_event_id).map EventPhoto.file_id ∧
      (photosOf (organizer_fix_and_resubmit db actor old_event_id new_event_id).1.photos
          new_event_id).map EventPhoto.position
        = List.range' 1 (photosOf db.photos old_event_id).length ∧
      photosOf (organizer_fix_and_resubmit db actor old_event_id new_event_id).1.photos
          old_event_id = photosOf db.photos old_event_id) ∧
    (old_event.user_id ≠ actor →
      organizer_fix_and_resubmit db actor old_event_id new_event_id = (db, .notOwner)) ∧
    (old_event.user_id = actor → old_event.status ≠ .REJECTED →
      organizer_fix_and_resubmit db actor old_event_id new_event_id = (db, .notRejected)) := by
  have hfind' : db.events.find? (fun x => x.id == old_event_id) = some old_event := hfind
  have hoid : old_event.id = old_event_id := by
    simpa using List.find?_some hfind'
  have hmemo : old_event ∈ db.events := List.mem_of_find?_eq_some hfind'
  have hne : old_event_id ≠ new_event_id := hoid ▸ hfresh old_event hmemo
  refine ⟨?_, ?_, ?_⟩
  · intro howner hrej
    have hob : (old_event.user_id != actor) = false := by simp [howner]
    have hrj : (old_event.status != EventStatus.REJECTED) = false := by simp [hrej]
    have hkept : db.photos.filter (fun p => p.event_id != new_event_id) = db.photos :=
      List.filter_eq_self.mpr (fun p hp => by simpa using hfreshp p hp)
    have htake : (photosOf db.photos old_event_id).take 5 = photosOf db.photos old_event_id :=
      List.take_of_length_le hcnt
    have hres : organizer_fix_and_resubmit db actor old_event_id new_event_id
        = ({ db with events := db.events ++ [cloneEvent old_event new_event_id],
                     photos := db.photos
                       ++ renumberPhotos new_event_id 1 (photosOf db.photos old_event_id) },
           .resubmitted new_event_id) := by
      simp [organizer_fix_and_resubmit, hfind, hob, hrj, hkept, htake]
    have hfilter_new : (db.photos
          ++ renumberPhotos new_event_id 1 (photosOf db.photos old_event_id)).filter
          (fun p => p.event_id == new_event_id)
        = renumberPhotos new_event_id 1 (photosOf db.photos old_event_id) := by
      rw [List.filter_append]
      have h1 : db.photos.filter (fun p => p.event_id == new_event_id) = [] := by
        rw [List.filter_eq_nil_iff]
        intro p hp
        simpa using hfreshp p hp
      have h2 : (renumberPhotos new_event_id 1 (photosOf db.photos old_event_id)).filter
          (fun p => p.event_id == new_event_id)
          = renumberPhotos new_event_id 1 (photosOf db.photos old_event_id) :=
        List.filter_eq_self.mpr (fun q hq => by
          simp [renumberPhotos_event_id new_event_id _ 1 q hq])
      rw [h1, h2]
      rfl
    have hphotos_new : photosOf (db.photos
          ++ renumberPhotos new_event_id 1 (photosOf db.photos old_event_id)) new_event_id
        = renumberPhotos new_event_id 1 (photosOf db.photos old_event_id) := by
      show ((db.photos ++ renumberPhotos new_event_id 1 (photosOf db.photos old_event_id)).filter
          (fun p => p.event_id == new_event_id)).insertionSort
          (fun a b => a.position ≤ b.position)
        = renumberPhotos new_event_id 1 (photosOf db.photos old_event_id)
      rw [hfilter_new]
      exact List.Sorted.insertionSort_eq
        (renumberPhotos_sorted new_event_id (photosOf db.photos old_event_id) 1)
    have h2 : (renumberPhotos new_event_id 1 (photosOf db.photos old_event_id)).filter
        (fun p => p.event_id == old_event_id) = [] := by
      rw [List.filter_eq_nil_iff]
      intro q hq
      have hq' := renumberPhotos_event_id new_event_id (photosOf db.photos old_event_id) 1 q hq
      simp [hq']
      exact fun h => hne h.symm
    have hphotos_old : photosOf (db.photos
          ++ renumberPhotos new_event_id 1 (photosOf db.photos old_event_id)) old_event_id
        = photosOf db.photos old_event_id := by
      show ((db.photos ++ renumberPhotos new_event_id 1 (photosOf db.photos old_event_id)).filter
          (fun p => p.event_id == old_event_id)).insertionSort
          (fun a b => a.position ≤ b.position)
        = photosOf db.photos old_event_id
      rw [List.filter_append, h2, List.append_nil]
      rfl
    refine ⟨hres, ?_, ?_, ?_, ?_, ?_⟩
    · rw [hres]
      show (db.events ++ [cloneEvent old_event new_event_id]).find?
          (fun x => x.id == old_event_id) = some old_event
      rw [List.find?_append, hfind']
      rfl
    · rw [hres]
      exact hphotos_new
    · rw [hres]
      show (photosOf (db.photos ++ _) new_event_id).map EventPhoto.file_id = _
      rw [hphotos_new, renumberPhotos_map_file_id]
    · rw [hres]
      show (photosOf (db.photos ++ _) new_event_id).map EventPhoto.position = _
      rw [hphotos_new, renumberPhotos_map_position]
    · rw [hres]
      exact hphotos_old
  · intro howner
    have hob : (old_event.user_id != actor) = true := by simpa using howner
    simp [organizer_fix_and_resubmit, hfind, hob]
  · intro howner hrej
    have hob : (old_event.user_id != actor) = false := by simp [howner]
    have hrj : (old_event.status != EventStatus.REJECTED) = true := by simpa using hrej
    simp [organizer_fix_and_resubmit, hfind, hob, hrj]

/-- C7 witness: resubmitting a concrete REJECTED event with two photos
under fresh id 2, plus the two refusal guards at concrete non-owner /
non-REJECTED inputs. -/
theorem C7_resubmission_clone_witness :
    (organizer_fix_and_resubmit sampleRejectedDB 10 1 2
      = ({ sampleRejectedDB with
            events := sampleRejectedDB.events
              ++ [cloneEvent { mkEvent 1 10 .REJECTED with reject_reason := some ("bad") } 2],
            photos := sampleRejectedDB.photos
              ++ renumberPhotos 2 1 (photosOf sampleRejectedDB.photos 1) },
         .resubmitted 2) ∧
     findEvent (organizer_fix_and_resubmit sampleRejectedDB 10 1 2).1 1
       = some { mkEvent 1 10 .REJECTED with reject_reason := some ("bad") } ∧
     photosOf (organizer_fix_and_resubmit sampleRejectedDB 10 1 2).1.photos 2
       = renumberPhotos 2 1 (photosOf sampleRejectedDB.photos 1) ∧
     (photosOf (organizer_fix_and_resubmit sampleRejectedDB 10 1 2).1.photos 2).map
        EventPhoto.file_id = (photosOf sampleRejectedDB.photos 1).map EventPhoto.file_id ∧
     (photosOf (organizer_fix_and_resubmit sampleRejectedDB 10 1 2).1.photos 2).map
        EventPhoto.position = List.range' 1 (photosOf sampleRejectedDB.photos 1).length ∧
     photosOf (organizer_fix_and_resubmit sampleRejectedDB 10 1 2).1.photos 1
       = photosOf sampleRejectedDB.photos 1) ∧
    organizer_fix_and_resubmit sampleRejectedDB 77 1 2 = (sampleRejectedDB, .notOwner) ∧
    organizer_fix_and_resubmit { events := [mkEvent 1 10 .ACTIVE] } 10 1 2
      = ({ events := [mkEvent 1 10 .ACTIVE] }, .notRejected) := by
  refine ⟨?_, ?_, ?_⟩
  · exact (C7_resubmission_clone sampleRejectedDB 10 1 2
      { mkEvent 1 10 .REJECTED with reject_reason := some ("bad") }
      rfl (by decide) (by decide) (by decide)).1 rfl rfl
  · exact (C7_resubmission_clone sampleRejectedDB 77 1 2
      { mkEvent 1 10 .REJECTED with reject_reason := some ("bad") }
      rfl (by decide) (by decide) (by decide)).2.1 (by decide)
  · exact (C7_resubmission_clone { events := [mkEvent 1 10 .ACTIVE] } 10 1 2
      (mkEvent 1 10 .ACTIVE) rfl (by decide) (by decide) (by decide)).2.2 rfl (by decide)

theorem floor_le_pyRound (q : ℚ) : ⌊q⌋ ≤ pyRound q := by
  simp only [pyRound]
  split_ifs <;> omega

theorem le_pyRound_of_le (z : ℤ) (q : ℚ) (h : (z : ℚ) ≤ q) : z ≤ pyRound q :=
  le_trans (Int.le_floor.mpr h) (floor_le_pyRound q)

/-- Tier selection and overflow of `_calculate_daily_price` for a config
with a single package of capacity 1 and a non-negative integer price (the
shape of every configured daily category). -/
theorem daily_single_package_spec (cfg : CategoryPricing) (key : String) (p : ℚ) (z : ℤ)
    (hpk : cfg.packages = [(key, p)])
    (hcap : extractIntCapacity key = some 1)
    (hbase : cfg.base_price_per_item = none)
    (hz : p = (z : ℚ)) (hz0 : 0 ≤ z)
    (n : Int) (hn : 1 ≤ n) :
    ∃ r, _calculate_daily_price cfg n = Except.ok r ∧
      ∃ limits, packageLimits cfg.packages = Except.ok limits ∧
      ((∃ t ∈ limits, n ≤ (t.1 : Int) ∧
          (∀ u ∈ limits, n ≤ (u.1 : Int) → t.1 ≤ u.1) ∧
          r.package_name = t.2.1 ∧ r.total_price = t.2.2) ∨
       ((∀ u ∈ limits, (u.1 : Int) < n) ∧
        (∀ b, cfg.base_price_per_item = some b →
          r.total_price = ((pyRound (b * (n : ℚ)) : ℤ) : ℚ)) ∧
        (cfg.base_price_per_item = none →
          ∃ m ∈ limits, (∀ u ∈ limits, u.1 ≤ m.1) ∧
            r.total_price = ((pyRound (m.2.2 / (m.1 : ℚ) * (n : ℚ)) : ℤ) : ℚ) ∧
            m.2.2 ≤ r.total_price))) := by
  have hlim : packageLimits cfg.packages = Except.ok [(1, key, p)] := by
    rw [hpk]
    simp [packageLimits, List.mapM, List.mapM.loop, hcap]
  have hn0 : ¬ n ≤ 0 := by omega
  have hne : cfg.packages.isEmpty = false := by simp [hpk]
  by_cases hn1 : n ≤ (1 : Int)
  · have hr : _calculate_daily_price cfg n = Except.ok
        { package_name := key, price := p, num_items := some n,
          model := "daily", total_price := p } := by
      simp [_calculate_daily_price, hn0, hne, hlim, sortLimits, List.insertionSort, hn1]
    refine ⟨_, hr, [(1, key, p)], hlim,
      Or.inl ⟨(1, key, p), by simp, by exact_mod_cast hn1, ?_, rfl, rfl⟩⟩
    intro u hu hnu
    simp at hu
    subst hu
    exact Nat.le_refl 1
  · have hfind : ¬ n ≤ ((1 : Nat) : Int) := by simpa using hn1
    have hr : _calculate_daily_price cfg n = Except.ok
        { package_name := "custom_" ++ toString n ++ "_posts",
          price := ((pyRound (p / ((1 : Nat) : ℚ) * (n : ℚ)) : ℤ) : ℚ), num_items := some n,
          model := "daily",
          total_price := ((pyRound (p / ((1 : Nat) : ℚ) * (n : ℚ)) : ℤ) : ℚ) } := by
      simp [_calculate_daily_price, hn0, hne, hlim, sortLimits, List.insertionSort, hfind,
        hn1, hbase]
    have hnq : (1 : ℚ) ≤ (n : ℚ) := by exact_mod_cast hn
    have hp0 : (0 : ℚ) ≤ p := by
      rw [hz]
      exact_mod_cast hz0
    have hle : (z : ℚ) ≤ p / ((1 : Nat) : ℚ) * (n : ℚ) := by
      rw [← hz]
      push_cast
      rw [div_one]
      nlinarith
    refine ⟨_, hr, [(1, key, p)], hlim, Or.inr ⟨?_, ?_, ?_⟩⟩
    · intro u hu
      simp at hu
      subst hu
      simpa using lt_of_not_le hn1
    · intro b hb
      rw [hbase] at hb
      cases hb
    · rintro -
      refine ⟨(1, key, p), by simp, fun u hu => by simp at hu; subst hu; exact Nat.le_refl 1,
        rfl, ?_⟩
      show p ≤ ((pyRound (p / ((1 : Nat) : ℚ) * (n : ℚ)) : ℤ) : ℚ)
      have hple : (z : ℚ) ≤ ((pyRound (p / ((1 : Nat) : ℚ) * (n : ℚ)) : ℤ) : ℚ) := by
        exact_mod_cast le_pyRound_of_le z _ hle
      exact le_trans (le_of_eq hz) hple

/-- C5: for every category configured with the daily model and every
`num_posts ≥ 1`, `calculate_price` selects the smallest-capacity
configured package whose capacity is `≥ num_posts` (first match of the
ascending scan) and returns that package's fixed price as `total_price`;
when `num_posts` exceeds every configured capacity it returns
`round(base_price_per_item * num_posts)` if that base is configured and
otherwise `round(largest_package_price / largest_package_capacity *
num_posts)`, and this overflow total is at least the largest package's
price. -/
theorem C5_daily_tier_selection (cat : String) (cfg : CategoryPricing)
    (hcfg : PRICING_CONFIG.lookup cat = some cfg) (hdaily : cfg.model = "daily")
    (n : Int) (hn : 1 ≤ n) :
    ∃ r, calculate_price cat (some n) none none = Except.ok r ∧
      ∃ limits, packageLimits cfg.packages = Except.ok limits ∧
      ((∃ t ∈ limits, n ≤ (t.1 : Int) ∧
          (∀ u ∈ limits, n ≤ (u.1 : Int) → t.1 ≤ u.1) ∧
          r.package_name = t.2.1 ∧ r.total_price = t.2.2) ∨
       ((∀ u ∈ limits, (u.1 : Int) < n) ∧
        (∀ b, cfg.base_price_per_item = some b →
          r.total_price = ((pyRound (b * (n : ℚ)) : ℤ) : ℚ)) ∧
        (cfg.base_price_per_item = none →
          ∃ m ∈ limits, (∀ u ∈ limits, u.1 ≤ m.1) ∧
            r.total_price = ((pyRound (m.2.2 / (m.1 : ℚ) * (n : ℚ)) : ℤ) : ℚ) ∧
            m.2.2 ≤ r.total_price))) := by
  have hnlt : ¬ n < 1 := by omega
  by_cases h1 : cat = "EXHIBITION"
  · subst h1
    simp [PRICING_CONFIG, List.lookup] at hcfg
    subst hcfg
    exact absurd hdaily (by decide)
  · by_cases h2 : cat = "MASTERCLASS"
    · subst h2
      simp [PRICING_CONFIG, List.lookup] at hcfg
      subst hcfg
      rw [show calculate_price ("MASTERCLASS") (some n) none none
          = _calculate_daily_price
            { name := "Мастер-класс", model := "daily", packages := [("1_post", 699)] } n
          from by simp [calculate_price, PRICING_CONFIG, List.lookup, hnlt]]
      exact daily_single_package_spec _ ("1_post") 699 699 rfl (by decide) rfl
        (by norm_num) (by norm_num) n hn
    · by_cases h3 : cat = "CONCERT"
      · subst h3
        simp [PRICING_CONFIG, List.lookup] at hcfg
        subst hcfg
        rw [show calculate_price ("CONCERT") (some n) none none
            = _calculate_daily_price
              { name := "Концерт", model := "daily", packages := [("1_post", 1499)] } n
            from by simp [calculate_price, PRICING_CONFIG, List.lookup, hnlt]]
        exact daily_single_package_spec _ ("1_post") 1499 1499 rfl (by decide) rfl
          (by norm_num) (by norm_num) n hn
      · by_cases h4 : cat = "PERFORMANCE"
        · subst h4
          simp [PRICING_CONFIG, List.lookup] at hcfg
          subst hcfg
          rw [show calculate_price ("PERFORMANCE") (some n) none none
              = _calculate_daily_price
                { name := "Выступление", model := "daily", packages := [("1_day", 499)] } n
              from by simp [calculate_price, PRICING_CONFIG, List.lookup, hnlt]]
          exact daily_single_package_spec _ ("1_day") 499 499 rfl (by decide) rfl
            (by norm_num) (by norm_num) n hn
        · by_cases h5 : cat = "LECTURE"
          · subst h5
            simp [PRICING_CONFIG, List.lookup] at hcfg
            subst hcfg
            rw [show calculate_price ("LECTURE") (some n) none none
                = _calculate_daily_price
                  { name := "Лекция/Семинар", model := "daily", packages := [("1_post", 499)] } n
                from by simp [calculate_price, PRICING_CONFIG, List.lookup, hnlt]]
            exact daily_single_package_spec _ ("1_post") 499 499 rfl (by decide) rfl
              (by norm_num) (by norm_num) n hn
          · by_cases h6 : cat = "OTHER"
            · subst h6
              simp [PRICING_CONFIG, List.lookup] at hcfg
              subst hcfg
              rw [show calculate_price ("OTHER") (some n) none none
                  = _calculate_daily_price
                    { name := "Другое", model := "daily", packages := [("1_day", 599)] } n
                  from by simp [calculate_price, PRICING_CONFIG, List.lookup, hnlt]]
              exact daily_single_package_spec _ ("1_day") 599 599 rfl (by decide) rfl
                (by norm_num) (by norm_num) n hn
            · have hb1 := beq_eq_false_iff_ne.mpr h1
              have hb2 := beq_eq_false_iff_ne.mpr h2
              have hb3 := beq_eq_false_iff_ne.mpr h3
              have hb4 := beq_eq_false_iff_ne.mpr h4
              have hb5 := beq_eq_false_iff_ne.mpr h5
              have hb6 := beq_eq_false_iff_ne.mpr h6
              simp [PRICING_CONFIG, List.lookup, hb1, hb2, hb3, hb4, hb5, hb6] at hcfg

/-- C5 witness: the tier-selection statement instantiated at the CONCERT
category with `num_posts = 3` (the overflow side, since the only
configured package has capacity 1). -/
theorem C5_daily_tier_selection_witness :
    ∃ r, calculate_price ("CONCERT") (some 3) none none = Except.ok r ∧
      ∃ limits, packageLimits ({ name := "Концерт", model := "daily",
                                 packages := [("1_post", 1499)] } : CategoryPricing).packages
        = Except.ok limits ∧
      ((∃ t ∈ limits, (3 : Int) ≤ (t.1 : Int) ∧
          (∀ u ∈ limits, (3 : Int) ≤ (u.1 : Int) → t.1 ≤ u.1) ∧
          r.package_name = t.2.1 ∧ r.total_price = t.2.2) ∨
       ((∀ u ∈ limits, (u.1 : Int) < 3) ∧
        (∀ b, ({ name := "Концерт", model := "daily",
                 packages := [("1_post", 1499)] } : CategoryPricing).base_price_per_item = some b →
          r.total_price = ((pyRound (b * ((3 : Int) : ℚ)) : ℤ) : ℚ)) ∧
        (({ name := "Концерт", model := "daily",
              packages := [("1_post", 1499)] } : CategoryPricing).base_price_per_item = none →
          ∃ m ∈ limits, (∀ u ∈ limits, u.1 ≤ m.1) ∧
            r.total_price = ((pyRound (m.2.2 / (m.1 : ℚ) * ((3 : Int) : ℚ)) : ℤ) : ℚ) ∧
            m.2.2 ≤ r.total_price))) :=
  C5_daily_tier_selection ("CONCERT")
    { name := "Концерт", model := "daily", packages := [("1_post", 1499)] }
    rfl rfl 3 (by decide)

end EventsNow
